import Mathlib

/-!
Shallow embedding of the `combat_engine` package (models.py, engine.py,
equipment.py, loot.py, dungeon.py) of the repository under verification.

Conventions of the embedding:
* Python `int` is `Int` (arbitrary precision, as in Python).
* Python `float` arithmetic is modelled exactly over `ℚ`; the float
  literals involved (`0.5`, `1.5`, `0.8`, `0.3`, ...) are taken at their
  decimal value.  Python `int(x)` truncates toward zero and is modelled
  by `pytrunc`; Python `//` on ints is floor division, modelled by
  `Int.fdiv`.
* The global `random` module is a state machine.  Its state is a `Nat`
  and its primitive draws (`random.random`, `random.randint`,
  `random.choice`, `random.seed`) are the fields of an abstract
  `RandModel`; every stateful function threads the state explicitly.
  Theorems quantify over the `RandModel`, so they hold in particular for
  the Mersenne-Twister instance the interpreter uses.
* `uuid.uuid4()` draws from OS entropy, not from the seeded `random`
  stream; it is modelled as a separate oracle `uuidFn` applied to a
  monotone counter threaded as `PyState.uuidCtr`.
* Python objects are immutable Lean values; mutation becomes explicit
  state passing, `copy.deepcopy` becomes the identity.
-/

/-- Python `int(x)` on a real value: truncation toward zero. -/
def pytrunc (q : ℚ) : Int := if 0 ≤ q then ⌊q⌋ else ⌈q⌉

/-- Association-list lookup, modelling Python `dict.get`. -/
def alookup {α β : Type} [DecidableEq α] : List (α × β) → α → Option β
  | [], _ => none
  | (k, v) :: rest, a => if k = a then some v else alookup rest a

/-- Association-list update, modelling Python `dict[k] = v` (insertion
order preserved, existing key overwritten in place). -/
def aupdate {α β : Type} [DecidableEq α] : List (α × β) → α → β → List (α × β)
  | [], a, b => [(a, b)]
  | (k, v) :: rest, a, b =>
      if k = a then (k, b) :: rest else (k, v) :: aupdate rest a b

/-- Association-list deletion, modelling Python `del d[k]`. -/
def adelete {α β : Type} [DecidableEq α] : List (α × β) → α → List (α × β)
  | [], _ => []
  | (k, v) :: rest, a => if k = a then rest else (k, v) :: adelete rest a

/-- `models.ElementType`. -/
inductive ElementType where
  | FIRE | WATER | EARTH | WIND | NEUTRAL
deriving DecidableEq, Repr

/-- `models.StatusEffectType`. -/
inductive StatusEffectType where
  | STUN | DOT | DEFENSE_DEBUFF | MULTI_HIT | ATTACK_BUFF | DEFENSE_BUFF
  | HEAL_OVER_TIME
deriving DecidableEq, Repr

/-- `models.CharacterClass`. -/
inductive CharacterClass where
  | WARRIOR | MAGE | ROGUE | PALADIN
deriving DecidableEq, Repr

/-- `models.EquipmentSlot`. -/
inductive EquipmentSlot where
  | WEAPON | ARMOR | ACCESSORY
deriving DecidableEq, Repr

/-- `models.ItemRarity`. -/
inductive ItemRarity where
  | COMMON | UNCOMMON | RARE | EPIC | LEGENDARY
deriving DecidableEq, Repr

/-- `models.AffixType`. -/
inductive AffixType where
  | ATTACK_BONUS | DEFENSE_BONUS | HP_BONUS | SPEED_BONUS | CRIT_CHANCE
  | ELEMENTAL_DAMAGE | LIFESTEAL | PROC_DAMAGE
deriving DecidableEq, Repr

/-- `models.MonsterTier`. -/
inductive MonsterTier where
  | TIER_1 | TIER_2 | TIER_3 | TIER_4
deriving DecidableEq, Repr

/-- `models.DungeonDifficulty`. -/
inductive DungeonDifficulty where
  | EASY | NORMAL | HARD | NIGHTMARE
deriving DecidableEq, Repr

/-- The `.value` string of an `ElementType` member. -/
def ElementType.val : ElementType → String
  | .FIRE => "fire"
  | .WATER => "water"
  | .EARTH => "earth"
  | .WIND => "wind"
  | .NEUTRAL => "neutral"

/-- The `.value` string of an `ItemRarity` member. -/
def ItemRarity.val : ItemRarity → String
  | .COMMON => "common"
  | .UNCOMMON => "uncommon"
  | .RARE => "rare"
  | .EPIC => "epic"
  | .LEGENDARY => "legendary"

/-- Python `rarity.value.title()` for the two rarities it is used on. -/
def ItemRarity.titled : ItemRarity → String
  | .COMMON => "Common"
  | .UNCOMMON => "Uncommon"
  | .RARE => "Rare"
  | .EPIC => "Epic"
  | .LEGENDARY => "Legendary"

/-- The `.value` string of a `MonsterTier` member. -/
def MonsterTier.val : MonsterTier → String
  | .TIER_1 => "tier_1"
  | .TIER_2 => "tier_2"
  | .TIER_3 => "tier_3"
  | .TIER_4 => "tier_4"

/-- The `.value` string of a `CharacterClass` member. -/
def CharacterClass.val : CharacterClass → String
  | .WARRIOR => "warrior"
  | .MAGE => "mage"
  | .ROGUE => "rogue"
  | .PALADIN => "paladin"

/-- `models.Stat`: base/current split of one integer stat. -/
structure Stat where
  base_value : Int
  current_value : Int
deriving DecidableEq, Repr

/-- `Stat.reset_to_base`. -/
def Stat.reset_to_base (s : Stat) : Stat :=
  { s with current_value := s.base_value }

/-- `models.StatusEffect`. -/
structure StatusEffect where
  effect_type : StatusEffectType
  value : Int
  duration : Int
  source_character_id : String
deriving DecidableEq, Repr

/-- `StatusEffect.tick`: decrement the duration by one (the Python
method also reports whether the effect is still active; callers in the
engine ignore that Boolean, so the embedding returns the updated
effect). -/
def StatusEffect.tick (e : StatusEffect) : StatusEffect :=
  { e with duration := e.duration - 1 }

/-- `models.Character`. -/
structure Character where
  character_id : String
  name : String
  character_class : CharacterClass
  level : Int
  max_hp : Int
  current_hp : Int
  attack : Stat
  defense : Stat
  speed : Stat
  element : ElementType
  status_effects : List StatusEffect := []
deriving DecidableEq, Repr

/-- `Character.is_alive`. -/
def Character.is_alive (c : Character) : Bool :=
  c.current_hp > 0

/-- `Character.take_damage`: returns (actual damage taken, updated
character). -/
def Character.take_damage (c : Character) (damage : Int) :
    Int × Character :=
  let actual_damage := max 0 (min damage c.current_hp)
  (actual_damage, { c with current_hp := c.current_hp - actual_damage })

/-- `Character.heal`: returns (actual healing received, updated
character). -/
def Character.heal (c : Character) (amount : Int) : Int × Character :=
  let new_hp := min (c.current_hp + amount) c.max_hp
  (new_hp - c.current_hp, { c with current_hp := new_hp })

/-- The loop body of `Character.apply_status_effect` on the effect
list: the first existing effect of the same type is replaced when the
incoming effect has strictly greater duration and kept otherwise; with
no match the incoming effect is appended. -/
def applyStatusEffectList (effects : List StatusEffect)
    (e : StatusEffect) : List StatusEffect :=
  match effects with
  | [] => [e]
  | x :: xs =>
      if x.effect_type = e.effect_type then
        if e.duration > x.duration then e :: xs else x :: xs
      else
        x :: applyStatusEffectList xs e

/-- `Character.apply_status_effect`. -/
def Character.apply_status_effect (c : Character) (e : StatusEffect) :
    Character :=
  { c with status_effects := applyStatusEffectList c.status_effects e }

/-- `Character.remove_expired_status_effects` (the returned expired
list is unused by the engine; the embedding keeps the remainder). -/
def Character.remove_expired_status_effects (c : Character) : Character :=
  { c with status_effects := c.status_effects.filter (fun e => e.duration > 0) }

/-- `Character.has_status_effect`. -/
def Character.has_status_effect (c : Character) (t : StatusEffectType) :
    Bool :=
  c.status_effects.any (fun e => e.effect_type = t)

/-- `Character.get_status_effect`: first effect of the given type. -/
def Character.get_status_effect (c : Character) (t : StatusEffectType) :
    Option StatusEffect :=
  c.status_effects.find? (fun e => e.effect_type = t)

/-- `Character.reset_for_combat`. -/
def Character.reset_for_combat (c : Character) : Character :=
  { c with
    current_hp := c.max_hp
    status_effects := []
    attack := c.attack.reset_to_base
    defense := c.defense.reset_to_base
    speed := c.speed.reset_to_base }

/-- `engine.ElementalModifier.ADVANTAGE_MATRIX`: the per-attacker rows
of the advantage dictionary, in source order. -/
def ADVANTAGE_MATRIX : ElementType → List (ElementType × ℚ)
  | .FIRE => [(.EARTH, 3/2), (.WIND, 4/5)]
  | .WATER => [(.FIRE, 3/2), (.EARTH, 4/5)]
  | .EARTH => [(.WATER, 3/2), (.WIND, 4/5)]
  | .WIND => [(.WATER, 3/2), (.FIRE, 4/5)]
  | .NEUTRAL => []

/-- `engine.ElementalModifier.get_modifier`. -/
def get_modifier (attacker_element defender_element : ElementType) : ℚ :=
  (alookup (ADVANTAGE_MATRIX attacker_element) defender_element).getD 1

/-- Abstract model of the primitive draws of the Python `random`
module: `seedFn` is `random.seed`, `nextFloat` is `random.random`
(value in [0,1)), `nextInt a b` is `random.randint(a, b)`, `choiceIdx n`
is the index drawn by `random.choice` from a sequence of length `n`,
and `uuidFn` is the OS-entropy oracle behind `uuid.uuid4()` (not part
of the seeded stream). -/
structure RandModel where
  seedFn : Int → Nat
  nextFloat : Nat → ℚ × Nat
  nextInt : Int → Int → Nat → Int × Nat
  choiceIdx : Nat → Nat → Nat × Nat
  uuidFn : Nat → String

/-- The interpreter-global state threaded by the embedding: the state
of the `random` module and the monotone counter indexing the uuid
oracle. -/
structure PyState where
  rng : Nat
  uuidCtr : Nat
deriving DecidableEq, Repr

/-- `random.random()` lifted to `PyState`. -/
def PyState.drawFloat (M : RandModel) (st : PyState) : ℚ × PyState :=
  let (q, g) := M.nextFloat st.rng
  (q, { st with rng := g })

/-- `random.randint(a, b)` lifted to `PyState`. -/
def PyState.drawInt (M : RandModel) (a b : Int) (st : PyState) :
    Int × PyState :=
  let (v, g) := M.nextInt a b st.rng
  (v, { st with rng := g })

/-- `random.choice(l)` lifted to `PyState`; the drawn index is reduced
modulo the length so the selection is total (the real interpreter
always draws a valid index). -/
def PyState.drawChoice {α : Type} (M : RandModel) (l : List α)
    (default : α) (st : PyState) : α × PyState :=
  let (i, g) := M.choiceIdx l.length st.rng
  (l.getD (i % l.length) default, { st with rng := g })

/-- `uuid.uuid4()` lifted to `PyState`. -/
def PyState.drawUuid (M : RandModel) (st : PyState) : String × PyState :=
  (M.uuidFn st.uuidCtr, { st with uuidCtr := st.uuidCtr + 1 })

/-- `engine.StatusEffectEngine.apply_stun`. -/
def apply_stun (target : Character) (duration : Int)
    (source_id : String) : StatusEffect × Character :=
  let effect : StatusEffect :=
    { effect_type := .STUN, value := 0, duration := duration,
      source_character_id := source_id }
  (effect, target.apply_status_effect effect)

/-- `engine.StatusEffectEngine.apply_dot`. -/
def apply_dot (target : Character) (damage_per_turn duration : Int)
    (source_id : String) : StatusEffect × Character :=
  let effect : StatusEffect :=
    { effect_type := .DOT, value := damage_per_turn,
      duration := duration, source_character_id := source_id }
  (effect, target.apply_status_effect effect)

/-- `engine.StatusEffectEngine.apply_defense_debuff`: applies the
effect and immediately lowers the current defense value, clamped at
zero. -/
def apply_defense_debuff (target : Character)
    (defense_reduction duration : Int) (source_id : String) :
    StatusEffect × Character :=
  let effect : StatusEffect :=
    { effect_type := .DEFENSE_DEBUFF, value := defense_reduction,
      duration := duration, source_character_id := source_id }
  let t1 := target.apply_status_effect effect
  (effect, { t1 with defense :=
    { t1.defense with current_value := (
        max 0 (t1.defense.current_value - defense_reduction)) } })

/-- `engine.StatusEffectEngine.apply_attack_buff`: applies the effect
and immediately raises the current attack value. -/
def apply_attack_buff (target : Character)
    (attack_bonus duration : Int) (source_id : String) :
    StatusEffect × Character :=
  let effect : StatusEffect :=
    { effect_type := .ATTACK_BUFF, value := attack_bonus,
      duration := duration, source_character_id := source_id }
  let t1 := target.apply_status_effect effect
  (effect, { t1 with attack :=
    { t1.attack with current_value := (
        t1.attack.current_value + attack_bonus) } })

/-- `engine.StatusEffectEngine.process_status_effects_end_of_turn`:
tick every effect down by one, then purge the expired ones. -/
def process_end_of_turn (c : Character) : Character :=
  ({ c with status_effects := (
      c.status_effects.map StatusEffect.tick) }).remove_expired_status_effects

/-- `engine.CombatSimulator.process_turn_start_effects` together with
`StatusEffectEngine.process_status_effects_start_of_turn`: collect the
(DOT, damage) / (HOT, healing) pairs from the current effect list, then
apply them to the character in order. -/
def process_turn_start_effects (c : Character) : Character :=
  let results : List (StatusEffectType × Int) :=
    c.status_effects.filterMap (fun e =>
      if e.effect_type = .DOT then some (StatusEffectType.DOT, e.value)
      else if e.effect_type = .HEAL_OVER_TIME then
        some (StatusEffectType.HEAL_OVER_TIME, e.value)
      else none)
  results.foldl (fun ch p =>
    if p.1 = .DOT then (ch.take_damage p.2).2
    else if p.1 = .HEAL_OVER_TIME then (ch.heal p.2).2
    else ch) c

/-- `engine.DamageCalculator.calculate_damage`: returns
`((damage, is_crit, is_miss), rng-state)`.  The miss draw happens only
when `use_random` is set (Python `and` short-circuit); so does the crit
draw. -/
def calculate_damage (M : RandModel) (attacker defender : Character)
    (base_multiplier : ℚ) (use_random : Bool) (g : Nat) :
    (Int × Bool × Bool) × Nat :=
  let go : Nat → (Int × Bool × Bool) × Nat := fun g0 =>
    let attack_bonus : Int :=
      if attacker.has_status_effect .ATTACK_BUFF then
        match attacker.get_status_effect .ATTACK_BUFF with
        | some e => e.value
        | none => 0
      else 0
    let attacker_attack := attacker.attack.current_value + attack_bonus
    let defender_defense := defender.defense.current_value
    let base1 : Int := max 1 (pytrunc ((attacker_attack : ℚ) * base_multiplier -
      (defender_defense : ℚ) * (1/2)))
    let elemental_mod := get_modifier attacker.element defender.element
    let base2 : Int := pytrunc ((base1 : ℚ) * elemental_mod)
    if use_random then
      let (r, g1) := M.nextFloat g0
      if r < 3/20 then ((max 1 (pytrunc ((base2 : ℚ) * 2)), true, false), g1)
      else ((max 1 base2, false, false), g1)
    else ((max 1 base2, false, false), g0)
  if use_random then
    let (r, g1) := M.nextFloat g
    if r < 1/20 then ((0, false, true), g1)
    else go g1
  else go g

/-- `engine.CombatSimulator.determine_turn_order`: two `randint(-2,2)`
draws perturb the speeds; the faster side comes first (ties favour the
player).  The result is computed once at combat start and then
effectively discarded by the alternating turn loop. -/
def determine_turn_order (M : RandModel) (player opponent : Character)
    (g : Nat) : (Character × Character) × Nat :=
  let (pv, g1) := M.nextInt (-2) 2 g
  let (ov, g2) := M.nextInt (-2) 2 g1
  if player.speed.current_value + pv ≥ opponent.speed.current_value + ov then
    ((player, opponent), g2)
  else ((opponent, player), g2)

/-- `engine.CombatSimulator._determine_status_effects`: one Bernoulli
draw conditioned on the attacker class (Python `and` short-circuits, so
only the matching class draws); rogue stuns, mage applies a DOT,
paladin buffs its own attack (without recording the effect in the
returned list), warrior debuffs defense. -/
def determine_status_effects (M : RandModel)
    (attacker defender : Character) (g : Nat) :
    (List StatusEffect × Character × Character) × Nat :=
  match attacker.character_class with
  | .ROGUE =>
      let (r, g1) := M.nextFloat g
      if r < 3/10 then
        let (eff, d1) := apply_stun defender 1 attacker.character_id
        (([eff], attacker, d1), g1)
      else (([], attacker, defender), g1)
  | .MAGE =>
      let (r, g1) := M.nextFloat g
      if r < 2/5 then
        let (eff, d1) := apply_dot defender 3 3 attacker.character_id
        (([eff], attacker, d1), g1)
      else (([], attacker, defender), g1)
  | .PALADIN =>
      let (r, g1) := M.nextFloat g
      if r < 1/5 then
        let (_, a1) := apply_attack_buff attacker 2 2 attacker.character_id
        (([], a1, defender), g1)
      else (([], attacker, defender), g1)
  | .WARRIOR =>
      let (r, g1) := M.nextFloat g
      if r < 1/5 then
        let (eff, d1) := apply_defense_debuff defender 2 2 attacker.character_id
        (([eff], attacker, d1), g1)
      else (([], attacker, defender), g1)

/-- `engine.CombatSimulator._calculate_multi_hit`: speed above 15 gives
a 30% chance of a 2-hit combo; otherwise no draw occurs. -/
def calculate_multi_hit (M : RandModel) (attacker : Character)
    (g : Nat) : Int × Nat :=
  if attacker.speed.current_value > 15 then
    let (r, g1) := M.nextFloat g
    if r < 3/10 then (2, g1) else (1, g1)
  else (1, g)

/-- `models.CombatAction`. -/
structure CombatAction where
  actor_id : String
  target_id : String
  action_type : String
  damage_dealt : Int := 0
  healing_done : Int := 0
  status_effects_applied : List StatusEffect := []
  is_crit : Bool := false
  is_miss : Bool := false
  is_stun : Bool := false
  multi_hit_count : Int := 1
deriving DecidableEq, Repr

/-- Decrement the duration of the first effect of the given type, in
place in the list (the Python code mutates the object returned by
`get_status_effect`, which is an element of the list). -/
def tickFirstEffect : List StatusEffect → StatusEffectType →
    List StatusEffect
  | [], _ => []
  | x :: xs, t =>
      if x.effect_type = t then x.tick :: xs else x :: tickFirstEffect xs t

/-- `engine.CombatSimulator.resolve_attack`: returns the recorded
action, the updated attacker and defender, and the rng state. -/
def resolve_attack (M : RandModel) (attacker defender : Character)
    (g : Nat) : (CombatAction × Character × Character) × Nat :=
  let action0 : CombatAction :=
    { actor_id := attacker.character_id,
      target_id := defender.character_id, action_type := "attack" }
  if attacker.has_status_effect .STUN then
    let a1 := { attacker with status_effects := (
      tickFirstEffect attacker.status_effects .STUN) }
    (({ action0 with is_stun := true }, a1, defender), g)
  else
    let (res, g1) := calculate_damage M attacker defender 1 true g
    let damage := res.1
    let is_crit := res.2.1
    let is_miss := res.2.2
    let action1 :=
      { action0 with
        damage_dealt := damage
        is_crit := is_crit
        is_miss := is_miss }
    if is_miss then ((action1, attacker, defender), g1)
    else
      let (actual_damage, d1) := defender.take_damage damage
      let (sres, g2) := determine_status_effects M attacker d1 g1
      let effs := sres.1
      let a1 := sres.2.1
      let d2 := sres.2.2
      let action2 := { action1 with status_effects_applied := effs }
      let (multi_hit_count, g3) := calculate_multi_hit M a1 g2
      if multi_hit_count > 1 then
        let extra_damage := pytrunc ((damage : ℚ) * (1/2)) * (multi_hit_count - 1)
        let (actual2, d3) := d2.take_damage extra_damage
        (({ action2 with
            multi_hit_count := multi_hit_count
            damage_dealt := actual_damage + actual2 }, a1, d3), g3)
      else ((action2, a1, d2), g3)

/-- `models.CombatTurn` (the before/after serialized snapshots carried
by the Python dataclass are derived views of the state and are not
needed by any claim; the turn number, actor and resolved actions are
kept). -/
structure CombatTurn where
  turn_number : Int
  actor_id : String
  actions : List CombatAction := []
deriving DecidableEq, Repr

/-- `models.CombatLog`. -/
structure CombatLog where
  combat_id : String
  player : Character
  opponent : Character
  turns : List CombatTurn := []
  winner_id : Option String := none
  total_turns : Int := 0
deriving DecidableEq, Repr

/-- `engine.CombatSimulator.MAX_TURNS`. -/
def MAX_TURNS : Int := 50

/-- The `while` loop of `simulate_combat`.  The guard is the source
condition `player.is_alive() and opponent.is_alive() and
turn_number < MAX_TURNS`; the `fuel` argument only forces termination
and is chosen so that it never cuts the loop short (callers pass
`fuel = 50` with `turn_number = 0`, and the guard bounds the turn
counter by 50). -/
def combat_loop (M : RandModel) : Nat → Int → Character → Character →
    Nat → List CombatTurn →
    Character × Character × Nat × List CombatTurn × Int
  | 0, turn_number, p, o, g, acc => (p, o, g, acc.reverse, turn_number)
  | fuel + 1, turn_number, p, o, g, acc =>
      if p.is_alive && o.is_alive && turn_number < MAX_TURNS then
        let turn1 := turn_number + 1
        let actorIsPlayer : Bool := turn1 % 2 = 1
        let actor := if actorIsPlayer then p else o
        let target := if actorIsPlayer then o else p
        let actor1 := process_turn_start_effects actor
        let (ares, g1) := resolve_attack M actor1 target g
        let action := ares.1
        let actor2 := ares.2.1
        let target2 := ares.2.2
        let actor3 := process_end_of_turn actor2
        let target3 := process_end_of_turn target2
        let turn_log : CombatTurn :=
          { turn_number := turn1, actor_id := actor1.character_id,
            actions := [action] }
        let p2 := if actorIsPlayer then actor3 else target3
        let o2 := if actorIsPlayer then target3 else actor3
        combat_loop M fuel turn1 p2 o2 g1 (turn_log :: acc)
      else (p, o, g, acc.reverse, turn_number)

/-- `engine.CombatSimulator.simulate_combat` given the combat id drawn
at construction time.  Deep-copying the inputs is the identity on
values; both characters are reset, the (discarded) turn order draws are
consumed, the turn loop runs, and the winner is the sole survivor if
there is one. -/
def simulate_combat (M : RandModel) (combat_id : String)
    (player opponent : Character) (g : Nat) : CombatLog × Nat :=
  let player := player.reset_for_combat
  let opponent := opponent.reset_for_combat
  let (_, g0) := determine_turn_order M player opponent g
  let res := combat_loop M 50 0 player opponent g0 []
  let p := res.1
  let o := res.2.1
  let g1 := res.2.2.1
  let turns := res.2.2.2.1
  let turn_number := res.2.2.2.2
  let winner_id : Option String :=
    if p.is_alive && !o.is_alive then some p.character_id
    else if o.is_alive && !p.is_alive then some o.character_id
    else none
  ({ combat_id := combat_id, player := p, opponent := o,
     turns := turns, winner_id := winner_id,
     total_turns := turn_number }, g1)

/-- `engine.CombatSimulator.__init__` (draws the combat id from the
uuid oracle; a supplied seed reseeds the shared stream, discarding the
previous rng state) followed by `simulate_combat`: one full simulation
session as performed by `CombatSimulator(seed).simulate_combat(p, o)`. -/
def runSimulation (M : RandModel) (seed : Option Int)
    (player opponent : Character) (st : PyState) : CombatLog × PyState :=
  let g := match seed with
    | some s => M.seedFn s
    | none => st.rng
  let (combat_id, st1) := PyState.drawUuid M { st with rng := g }
  let (log, g1) := simulate_combat M combat_id player opponent st1.rng
  (log, { st1 with rng := g1 })

/-- `models.EquipmentAffix`. -/
structure EquipmentAffix where
  affix_type : AffixType
  value : Int
  element : Option ElementType := none
deriving DecidableEq, Repr

/-- `models.Equipment` (`base_stats` is a dict in insertion order). -/
structure Equipment where
  item_id : String
  name : String
  slot : EquipmentSlot
  rarity : ItemRarity
  level_requirement : Int
  base_stats : List (String × Int)
  affixes : List EquipmentAffix := []
  special_proc : Option String := none
deriving DecidableEq, Repr

/-- `equipment.EquipmentGenerator.WEAPON_PREFIXES`. -/
def WEAPON_PREFIXES : List String :=
  ["Iron", "Steel", "Mythril", "Dragon", "Shadow", "Holy", "Arcane"]

/-- `equipment.EquipmentGenerator.WEAPON_SUFFIXES`. -/
def WEAPON_SUFFIXES : List String :=
  ["Blade", "Sword", "Axe", "Mace", "Dagger", "Staff", "Wand"]

/-- `equipment.EquipmentGenerator.ARMOR_PREFIXES`. -/
def ARMOR_PREFIXES : List String :=
  ["Leather", "Chain", "Plate", "Robe", "Scale", "Crystal"]

/-- `equipment.EquipmentGenerator.ARMOR_SUFFIXES`. -/
def ARMOR_SUFFIXES : List String :=
  ["Vest", "Mail", "Armor", "Robes", "Guard", "Shield"]

/-- `equipment.EquipmentGenerator.ACCESSORY_PREFIXES`. -/
def ACCESSORY_PREFIXES : List String :=
  ["Ring", "Amulet", "Charm", "Talisman", "Orb"]

/-- `equipment.EquipmentGenerator.ACCESSORY_SUFFIXES`. -/
def ACCESSORY_SUFFIXES : List String :=
  ["Power", "Wisdom", "Protection", "Swift", "Might"]

/-- `equipment.EquipmentGenerator.RARITY_WEIGHTS` in dict insertion
order. -/
def RARITY_WEIGHTS : List (ItemRarity × Int) :=
  [(.COMMON, 50), (.UNCOMMON, 30), (.RARE, 15), (.EPIC, 4), (.LEGENDARY, 1)]

/-- `equipment.EquipmentGenerator.AFFIX_COUNT_RANGE`. -/
def AFFIX_COUNT_RANGE : ItemRarity → Int × Int
  | .COMMON => (0, 1)
  | .UNCOMMON => (1, 2)
  | .RARE => (2, 3)
  | .EPIC => (3, 4)
  | .LEGENDARY => (4, 5)

/-- `equipment.EquipmentGenerator.SPECIAL_PROC_CHANCE`. -/
def SPECIAL_PROC_CHANCE : ItemRarity → ℚ
  | .COMMON => 0
  | .UNCOMMON => 1/20
  | .RARE => 3/20
  | .EPIC => 3/10
  | .LEGENDARY => 1/2

/-- The cumulative-weight scan shared by the weighted rarity rolls:
walk the (item, weight) list accumulating weight and return the first
item whose cumulative weight reaches the roll. -/
def cumulativePick {α : Type} : List (α × Int) → Int → Int → Option α
  | [], _, _ => none
  | (r, w) :: rest, roll, current =>
      let c := current + w
      if roll ≤ c then some r else cumulativePick rest roll c

/-- `equipment.EquipmentGenerator._roll_rarity`. -/
def roll_rarity (M : RandModel) (g : Nat) : ItemRarity × Nat :=
  let total_weight := (RARITY_WEIGHTS.map Prod.snd).sum
  let (roll, g1) := M.nextInt 1 total_weight g
  ((cumulativePick RARITY_WEIGHTS roll 0).getD .COMMON, g1)

/-- `equipment.EquipmentGenerator._generate_name`. -/
def generate_name (M : RandModel) (slot : EquipmentSlot)
    (rarity : ItemRarity) (g : Nat) : String × Nat :=
  let lists : List String × List String :=
    match slot with
    | .WEAPON => (WEAPON_PREFIXES, WEAPON_SUFFIXES)
    | .ARMOR => (ARMOR_PREFIXES, ARMOR_SUFFIXES)
    | .ACCESSORY => (ACCESSORY_PREFIXES, ACCESSORY_SUFFIXES)
  let (i, g1) := M.choiceIdx lists.1.length g
  let pre := lists.1.getD (i % lists.1.length) ""
  let (j, g2) := M.choiceIdx lists.2.length g1
  let suf := lists.2.getD (j % lists.2.length) ""
  if rarity = .EPIC ∨ rarity = .LEGENDARY then
    (pre ++ " " ++ rarity.titled ++ " " ++ suf, g2)
  else (pre ++ " " ++ suf, g2)

/-- `equipment.EquipmentGenerator._generate_base_stats`. -/
def generate_base_stats (slot : EquipmentSlot) (item_level : Int)
    (rarity : ItemRarity) : List (String × Int) :=
  let multiplier : ℚ :=
    match rarity with
    | .COMMON => 1
    | .UNCOMMON => 6/5
    | .RARE => 3/2
    | .EPIC => 2
    | .LEGENDARY => 5/2
  let base_value := pytrunc ((item_level : ℚ) * 2 * multiplier)
  match slot with
  | .WEAPON => [("attack", base_value)]
  | .ARMOR => [("defense", base_value), ("hp", base_value.fdiv 2)]
  | .ACCESSORY =>
      [("attack", base_value.fdiv 3), ("defense", base_value.fdiv 3),
       ("speed", base_value.fdiv 4)]

/-- `equipment.EquipmentGenerator._calculate_affix_value`. -/
def calculate_affix_value (affix_type : AffixType) (item_level : Int)
    (rarity : ItemRarity) : Int :=
  let multiplier : ℚ :=
    match rarity with
    | .COMMON => 1
    | .UNCOMMON => 13/10
    | .RARE => 8/5
    | .EPIC => 2
    | .LEGENDARY => 5/2
  let base_value := item_level
  match affix_type with
  | .ATTACK_BONUS => pytrunc ((base_value : ℚ) * 2 * multiplier)
  | .DEFENSE_BONUS => pytrunc ((base_value : ℚ) * 2 * multiplier)
  | .HP_BONUS => pytrunc ((base_value : ℚ) * 2 * multiplier)
  | .SPEED_BONUS => pytrunc ((base_value : ℚ) * multiplier)
  | .CRIT_CHANCE => min 25 (pytrunc ((base_value : ℚ) * (1/2) * multiplier))
  | .ELEMENTAL_DAMAGE => pytrunc ((base_value : ℚ) * (3/2) * multiplier)
  | .LIFESTEAL => min 20 (pytrunc ((base_value : ℚ) * (3/10) * multiplier))
  | .PROC_DAMAGE => pytrunc ((base_value : ℚ) * 3 * multiplier)

/-- `list(AffixType)` in enum declaration order. -/
def allAffixTypes : List AffixType :=
  [.ATTACK_BONUS, .DEFENSE_BONUS, .HP_BONUS, .SPEED_BONUS, .CRIT_CHANCE,
   .ELEMENTAL_DAMAGE, .LIFESTEAL, .PROC_DAMAGE]

/-- `list(ElementType)` in enum declaration order. -/
def allElementTypes : List ElementType :=
  [.FIRE, .WATER, .EARTH, .WIND, .NEUTRAL]

/-- The body of the affix generation loop of
`equipment.EquipmentGenerator._generate_affixes`: each iteration picks
a type without replacement, computes its value, and draws an element
for `ELEMENTAL_DAMAGE` affixes. -/
def generate_affixes_loop (M : RandModel) : Nat → List AffixType →
    Int → ItemRarity → Nat → List EquipmentAffix →
    List EquipmentAffix × Nat
  | 0, _, _, _, g, acc => (acc.reverse, g)
  | n + 1, available, item_level, rarity, g, acc =>
      let (i, g1) := M.choiceIdx available.length g
      let affix_type := available.getD (i % available.length) .ATTACK_BONUS
      let available1 := available.erase affix_type
      let base_value := calculate_affix_value affix_type item_level rarity
      let (element, g2) :=
        if affix_type = .ELEMENTAL_DAMAGE then
          let (j, g2) := M.choiceIdx allElementTypes.length g1
          (some (allElementTypes.getD (j % allElementTypes.length) .FIRE), g2)
        else (none, g1)
      generate_affixes_loop M n available1 item_level rarity g2
        ({ affix_type := affix_type, value := base_value,
           element := element } :: acc)

/-- `equipment.EquipmentGenerator._generate_affixes`. -/
def generate_affixes (M : RandModel) (count : Int) (item_level : Int)
    (rarity : ItemRarity) (g : Nat) :
    List EquipmentAffix × Nat :=
  if count = 0 then ([], g)
  else generate_affixes_loop M count.toNat allAffixTypes item_level rarity g []

/-- `equipment.EquipmentGenerator._generate_special_proc`. -/
def generate_special_proc (M : RandModel) (slot : EquipmentSlot)
    (g : Nat) : String × Nat :=
  let weapon_procs : List String :=
    ["Chance to deal double damage", "Lightning strikes on hit",
     "Fire damage over time", "Heal on hit", "Chance to stun target"]
  let armor_procs : List String :=
    ["Thorns damage反射", "Damage reduction on low health",
     "Regeneration in combat", "Chance to block attacks",
     "Elemental resistance"]
  let accessory_procs : List String :=
    ["Increased critical chance", "Movement speed boost",
     "Bonus experience gain", "Currency find bonus", "Loot rarity bonus"]
  let procs : List String :=
    match slot with
    | .WEAPON => weapon_procs
    | .ARMOR => armor_procs
    | .ACCESSORY => accessory_procs
  let (i, g1) := M.choiceIdx procs.length g
  (procs.getD (i % procs.length) "", g1)

/-- `equipment.EquipmentGenerator.generate_equipment`: an explicit seed
reseeds the shared stream, the rarity is rolled when absent, then name,
base stats, affix count, affixes and the special proc are drawn in
source order; the item id is a fresh uuid4. -/
def generate_equipment (M : RandModel) (slot : EquipmentSlot)
    (item_level : Int) (rarity : Option ItemRarity) (seed : Option Int)
    (st : PyState) : Equipment × PyState :=
  let g0 := match seed with
    | some s => M.seedFn s
    | none => st.rng
  let (rarity1, g1) := match rarity with
    | some r => (r, g0)
    | none => roll_rarity M g0
  let (name, g2) := generate_name M slot rarity1 g1
  let base_stats := generate_base_stats slot item_level rarity1
  let (affix_count, g3) :=
    M.nextInt (AFFIX_COUNT_RANGE rarity1).1
      (AFFIX_COUNT_RANGE rarity1).2 g2
  let (affixes, g4) := generate_affixes M affix_count item_level rarity1 g3
  let (r, g5) := M.nextFloat g4
  let (special_proc, g6) :=
    if r < SPECIAL_PROC_CHANCE rarity1 then
      let (p, g6) := generate_special_proc M slot g5
      (some p, g6)
    else (none, g5)
  let item_id := M.uuidFn st.uuidCtr
  ({ item_id := item_id
     name := name
     slot := slot
     rarity := rarity1
     level_requirement := max 1 (item_level - 5)
     base_stats := base_stats
     affixes := affixes
     special_proc := special_proc },
   { rng := g6, uuidCtr := st.uuidCtr + 1 })

/-- `models.LootEntry`. -/
structure LootEntry where
  item_id : Option String := none
  weight : Int := 1
  min_quantity : Int := 1
  max_quantity : Int := 1
  rarity : Option ItemRarity := none
  is_guaranteed : Bool := false
deriving DecidableEq, Repr

/-- `models.LootTable`. -/
structure LootTable where
  table_id : String
  name : String
  monster_tier : MonsterTier
  entries : List LootEntry := []
  currency_drops : List LootEntry := []
deriving DecidableEq, Repr

/-- `list(EquipmentSlot)` in enum declaration order. -/
def allEquipmentSlots : List EquipmentSlot := [.WEAPON, .ARMOR, .ACCESSORY]

/-- `loot.LootRoller._roll_chance`. -/
def roll_chance (M : RandModel) (weight : Int) (st : PyState) :
    Bool × PyState :=
  let chance : ℚ := min 1 ((weight : ℚ) / 100)
  let (r, st1) := PyState.drawFloat M st
  (r < chance, st1)

/-- `loot.LootRoller._get_drop_count`. -/
def get_drop_count (M : RandModel) (monster_tier : MonsterTier)
    (st : PyState) : Int × PyState :=
  let range : Int × Int :=
    match monster_tier with
    | .TIER_1 => (1, 1)
    | .TIER_2 => (1, 2)
    | .TIER_3 => (2, 3)
    | .TIER_4 => (3, 5)
  PyState.drawInt M range.1 range.2 st

/-- `loot.LootRoller._roll_rarity_for_tier`. -/
def roll_rarity_for_tier (M : RandModel) (st : PyState) :
    ItemRarity × PyState :=
  let rarity_weights : List (ItemRarity × Int) :=
    [(.COMMON, 60), (.UNCOMMON, 25), (.RARE, 10), (.EPIC, 4),
     (.LEGENDARY, 1)]
  let total_weight := (rarity_weights.map Prod.snd).sum
  let (roll, st1) := PyState.drawInt M 1 total_weight st
  ((cumulativePick rarity_weights roll 0).getD .COMMON, st1)

/-- Python truthiness of `entry.item_id` (an optional string: `None`
and the empty string are falsy). -/
def truthyId (i : Option String) : Bool :=
  match i with
  | some s => s ≠ ""
  | none => false

/-- `loot.LootRoller._generate_drop_from_entry`: entries with neither a
truthy `item_id` nor a `rarity` produce no drop; otherwise a slot is
drawn at random, the rarity comes from the entry or a secondary
weighted roll, and the Equipment Generator runs at a random item level
in [1, 50] without reseeding. -/
def generate_drop_from_entry (M : RandModel) (entry : LootEntry)
    (st : PyState) : Option Equipment × PyState :=
  if !truthyId entry.item_id && entry.rarity = none then (none, st)
  else
    let (slot, st1) :=
      PyState.drawChoice M allEquipmentSlots EquipmentSlot.WEAPON st
    let (rarity, st2) := match entry.rarity with
      | some r => (r, st1)
      | none => roll_rarity_for_tier M st1
    let (item_level, st3) := PyState.drawInt M 1 50 st2
    let (equipment, st4) :=
      generate_equipment M slot item_level (some rarity) none st3
    (some equipment, st4)

/-- The guaranteed-drop phase of `loot.LootRoller.roll_loot`: each
`is_guaranteed` entry of `table.entries` is materialized in order, and
the drop is kept whenever one is produced. -/
def roll_guaranteed (M : RandModel) : List LootEntry → PyState →
    List Equipment × PyState
  | [], st => ([], st)
  | entry :: rest, st =>
      if entry.is_guaranteed then
        let (drop, st1) := generate_drop_from_entry M entry st
        let (ds, st2) := roll_guaranteed M rest st1
        (match drop with
         | some d => d :: ds
         | none => ds, st2)
      else roll_guaranteed M rest st

/-- The currency phase of `loot.LootRoller.roll_loot`: an entry drops
if it is guaranteed (no chance draw, Python `or` short-circuit) or its
weight-based Bernoulli check passes; the quantity is uniform over
[min_quantity, max_quantity]. -/
def roll_currency (M : RandModel) : List LootEntry → PyState → Int →
    Int × PyState
  | [], st, acc => (acc, st)
  | entry :: rest, st, acc =>
      if entry.is_guaranteed then
        let (q, st1) := PyState.drawInt M entry.min_quantity
          entry.max_quantity st
        roll_currency M rest st1 (acc + q)
      else
        let (ok, st1) := roll_chance M entry.weight st
        if ok then
          let (q, st2) := PyState.drawInt M entry.min_quantity
            entry.max_quantity st1
          roll_currency M rest st2 (acc + q)
        else roll_currency M rest st1 acc

/-- The inner cumulative-weight scan of the weighted equipment phase of
`roll_loot`: guaranteed entries are skipped, and the first
non-guaranteed entry whose cumulative weight reaches the roll is
selected. -/
def pick_weighted_entry : List LootEntry → Int → Int → Option LootEntry
  | [], _, _ => none
  | entry :: rest, roll, current =>
      if entry.is_guaranteed then pick_weighted_entry rest roll current
      else
        let c := current + entry.weight
        if roll ≤ c then some entry else pick_weighted_entry rest roll c

/-- The weighted equipment phase of `roll_loot`: `drop_count`
iterations, each drawing a roll in [1, total_weight] and materializing
the selected entry when it produces a drop. -/
def roll_weighted_loop (M : RandModel) : Nat → List LootEntry → Int →
    PyState → List Equipment → List Equipment × PyState
  | 0, _, _, st, acc => (acc.reverse, st)
  | n + 1, entries, total_weight, st, acc =>
      let (roll, st1) := PyState.drawInt M 1 total_weight st
      match pick_weighted_entry entries roll 0 with
      | some entry =>
          let (drop, st2) := generate_drop_from_entry M entry st1
          roll_weighted_loop M n entries total_weight st2
            (match drop with
             | some d => d :: acc
             | none => acc)
      | none => roll_weighted_loop M n entries total_weight st1 acc

/-- `loot.LootRoller.roll_loot`: optional reseed, then the guaranteed
phase, the currency phase and (when some non-guaranteed weight exists)
the weighted phase; returns `((equipment_drops, currency), state)`. -/
def roll_loot (M : RandModel) (loot_table : LootTable)
    (seed : Option Int) (st : PyState) :
    (List Equipment × Int) × PyState :=
  let st0 := match seed with
    | some s => { st with rng := M.seedFn s }
    | none => st
  let (equipment_drops, st1) := roll_guaranteed M loot_table.entries st0
  let (currency_dropped, st2) :=
    roll_currency M loot_table.currency_drops st1 0
  let total_weight :=
    ((loot_table.entries.filter (fun e => !e.is_guaranteed)).map
      (fun e => e.weight)).sum
  if total_weight > 0 then
    let (drop_count, st3) := get_drop_count M loot_table.monster_tier st2
    let (wdrops, st4) :=
      roll_weighted_loop M drop_count.toNat loot_table.entries
        total_weight st3 []
    ((equipment_drops ++ wdrops, currency_dropped), st4)
  else ((equipment_drops, currency_dropped), st2)

/-- `models.PlayerInventory`. -/
structure PlayerInventory where
  player_id : String
  equipment : List (EquipmentSlot × Option Equipment) := []
  inventory : List Equipment := []
  currency : Int := 0
deriving DecidableEq, Repr

/-- `models.Dungeon` (static configuration; `reward_multiplier` is a
float, modelled over `ℚ`). -/
structure Dungeon where
  dungeon_id : String
  name : String
  description : String
  difficulty : DungeonDifficulty
  level_requirement : Int
  entry_cost : Int
  floors : Int
  daily_reset_count : Int := 3
  reward_multiplier : ℚ := 1
  monster_tiers : List MonsterTier := []
deriving DecidableEq, Repr

/-- `models.DungeonRun` (timestamps are opaque to every claim and are
modelled as integers supplied by an external clock). -/
structure DungeonRun where
  run_id : String
  player_id : String
  dungeon_id : String
  difficulty : DungeonDifficulty
  start_time : Int
  end_time : Option Int := none
  completed : Bool := false
  floors_completed : Int := 0
  total_floors : Int := 0
  rewards_earned : List Equipment := []
  currency_earned : Int := 0
  entry_cost : Int := 0
deriving DecidableEq, Repr

/-- `models.DailyResetInfo` (calendar dates are opaque values compared
for equality; modelled as integers). -/
structure DailyResetInfo where
  player_id : String
  date : Int
  dungeon_attempts : List (String × Int) := []
deriving DecidableEq, Repr

/-- The mutable state of a `dungeon.DungeonManager` instance. -/
structure DungeonManagerState where
  dungeons : List (String × Dungeon) := []
  active_runs : List (String × DungeonRun) := []
  daily_resets : List (String × DailyResetInfo) := []
deriving DecidableEq, Repr

/-- `dungeon.DungeonManager.DEFAULT_DUNGEONS` (insertion order). -/
def DEFAULT_DUNGEONS : List (String × Dungeon) :=
  [("goblin_caves",
    { dungeon_id := "goblin_caves", name := "Goblin Caves",
      description := "Infested caves filled with goblins and their treasures.",
      difficulty := .EASY, level_requirement := 1, entry_cost := 10,
      floors := 5, daily_reset_count := 5, reward_multiplier := 1,
      monster_tiers := [.TIER_1, .TIER_2] }),
   ("dark_forest",
    { dungeon_id := "dark_forest", name := "Dark Forest",
      description := "A mysterious forest where dangerous creatures lurk.",
      difficulty := .NORMAL, level_requirement := 5, entry_cost := 25,
      floors := 8, daily_reset_count := 3, reward_multiplier := 6/5,
      monster_tiers := [.TIER_2, .TIER_3] }),
   ("volcanic_fortress",
    { dungeon_id := "volcanic_fortress", name := "Volcanic Fortress",
      description := "A fortress built in the heart of a volcano, guarded by fire elementals.",
      difficulty := .HARD, level_requirement := 10, entry_cost := 50,
      floors := 10, daily_reset_count := 2, reward_multiplier := 3/2,
      monster_tiers := [.TIER_3, .TIER_4] }),
   ("shadow_realm",
    { dungeon_id := "shadow_realm", name := "Shadow Realm",
      description := "A realm of pure darkness where only the strongest survive.",
      difficulty := .NIGHTMARE, level_requirement := 15, entry_cost := 100,
      floors := 15, daily_reset_count := 1, reward_multiplier := 2,
      monster_tiers := [.TIER_4] })]

/-- `dungeon.DungeonManager.__init__`: the default dungeons keyed by
their ids, no active runs, no daily reset info. -/
def DungeonManager.init : DungeonManagerState :=
  { dungeons := DEFAULT_DUNGEONS }

/-- `dungeon.DungeonManager.get_dungeon`. -/
def get_dungeon (s : DungeonManagerState) (dungeon_id : String) :
    Option Dungeon :=
  alookup s.dungeons dungeon_id

/-- Placeholder dungeon for the one lookup the source performs without
a `None` check right after `can_enter_dungeon` succeeded (which
guarantees the key is present, so this value is never used). -/
def UNREACHABLE_DUNGEON : Dungeon :=
  { dungeon_id := "", name := "", description := "",
    difficulty := .EASY, level_requirement := 0, entry_cost := 0,
    floors := 0 }

/-- `dungeon.DungeonManager.get_or_create_daily_info` at a fixed
current date `today`: reuse the stored info when it is for today,
otherwise create (and store) a fresh one with zero attempts. -/
def get_or_create_daily_info (s : DungeonManagerState) (today : Int)
    (player_id : String) : DailyResetInfo × DungeonManagerState :=
  match alookup s.daily_resets player_id with
  | some daily_info =>
      if daily_info.date = today then (daily_info, s)
      else
        let fresh : DailyResetInfo := { player_id := player_id, date := today }
        (fresh, { s with daily_resets := (
          aupdate s.daily_resets player_id fresh) })
  | none =>
      let fresh : DailyResetInfo := { player_id := player_id, date := today }
      (fresh, { s with daily_resets := (
        aupdate s.daily_resets player_id fresh) })

/-- Attempts recorded today for a player and dungeon (zero when the
stored info is missing or stale). -/
def attemptsToday (s : DungeonManagerState) (today : Int)
    (player_id dungeon_id : String) : Int :=
  match alookup s.daily_resets player_id with
  | some daily_info =>
      if daily_info.date = today then
        (alookup daily_info.dungeon_attempts dungeon_id).getD 0
      else 0
  | none => 0

/-- `dungeon.DungeonManager.can_enter_dungeon`: dungeon existence,
level gate, currency gate, then the daily-attempt quota, in source
order; returns the (bool, reason) pair and the possibly extended
daily-reset map. -/
def can_enter_dungeon (s : DungeonManagerState) (today : Int)
    (player_id dungeon_id : String) (player_level player_currency : Int) :
    (Bool × String) × DungeonManagerState :=
  match get_dungeon s dungeon_id with
  | none => ((false, "Dungeon not found"), s)
  | some dungeon =>
      if player_level < dungeon.level_requirement then
        ((false, "Level requirement not met (need " ++
          toString dungeon.level_requirement ++ ")"), s)
      else if player_currency < dungeon.entry_cost then
        ((false, "Insufficient currency (need " ++
          toString dungeon.entry_cost ++ ")"), s)
      else
        let (daily_info, s1) := get_or_create_daily_info s today player_id
        let attempts_today :=
          (alookup daily_info.dungeon_attempts dungeon_id).getD 0
        if attempts_today ≥ dungeon.daily_reset_count then
          ((false, "Daily attempts exhausted (" ++
            toString attempts_today ++ "/" ++
            toString dungeon.daily_reset_count ++ ")"), s1)
        else ((true, "Can enter dungeon"), s1)

/-- `dungeon.DungeonManager.start_dungeon_run`: re-validates via
`can_enter_dungeon`; on success draws a run id from the uuid oracle,
creates the run, deducts the entry cost, increments the daily counter
and registers the run as active.  `loot_tables` is accepted and unused,
as in the source. -/
def start_dungeon_run (M : RandModel) (s : DungeonManagerState)
    (today now : Int) (player_id dungeon_id : String)
    (player_character : Character) (player_inventory : PlayerInventory)
    (_loot_tables : List (String × LootTable)) (pst : PyState) :
    (Option DungeonRun × String) × DungeonManagerState ×
      PlayerInventory × PyState :=
  let (ce, s1) := can_enter_dungeon s today player_id dungeon_id
    player_character.level player_inventory.currency
  if !ce.1 then ((none, ce.2), s1, player_inventory, pst)
  else
    let dungeon := (get_dungeon s1 dungeon_id).getD UNREACHABLE_DUNGEON
    let (run_id, pst1) := PyState.drawUuid M pst
    let run : DungeonRun :=
      { run_id := run_id, player_id := player_id,
        dungeon_id := dungeon_id, difficulty := dungeon.difficulty,
        start_time := now, total_floors := dungeon.floors,
        entry_cost := dungeon.entry_cost }
    let inv1 := { player_inventory with currency := (
      player_inventory.currency - dungeon.entry_cost) }
    let (daily_info, s2) := get_or_create_daily_info s1 today player_id
    let attempts := (alookup daily_info.dungeon_attempts dungeon_id).getD 0
    let info1 := { daily_info with dungeon_attempts := (
      aupdate daily_info.dungeon_attempts dungeon_id (attempts + 1)) }
    let s3 := { s2 with daily_resets := (
      aupdate s2.daily_resets player_id info1) }
    let s4 := { s3 with active_runs := aupdate s3.active_runs run_id run }
    ((some run, "Dungeon run started"), s4, inv1, pst1)

/-- `dungeon.DungeonManager._get_encounter_count`. -/
def get_encounter_count (monster_tier : MonsterTier) (floors : Int) :
    Int :=
  match monster_tier with
  | .TIER_1 => floors * 2
  | .TIER_2 => floors
  | .TIER_3 => max 1 (floors.fdiv 2)
  | .TIER_4 => 1

/-- The per-tier encounter loop of
`dungeon.DungeonManager._generate_completion_rewards`: roll the tier
loot table `n` times, accumulating equipment and currency. -/
def reward_encounters (M : RandModel) : Nat → LootTable → PyState →
    List Equipment → Int → (List Equipment × Int) × PyState
  | 0, _, st, acc_eq, acc_cur => ((acc_eq, acc_cur), st)
  | n + 1, loot_table, st, acc_eq, acc_cur =>
      let (res, st1) := roll_loot M loot_table none st
      reward_encounters M n loot_table st1 (acc_eq ++ res.1)
        (acc_cur + res.2)

/-- The tier loop of `_generate_completion_rewards`: each configured
monster tier looks up the `dungeon-id_tier` loot table (skipping
missing ones) and runs its encounters. -/
def reward_tiers (M : RandModel) (dungeon : Dungeon)
    (loot_tables : List (String × LootTable)) : List MonsterTier →
    PyState → List Equipment → Int → (List Equipment × Int) × PyState
  | [], st, acc_eq, acc_cur => ((acc_eq, acc_cur), st)
  | tier :: rest, st, acc_eq, acc_cur =>
      let loot_table_id := dungeon.dungeon_id ++ "_" ++ tier.val
      match alookup loot_tables loot_table_id with
      | none => reward_tiers M dungeon loot_tables rest st acc_eq acc_cur
      | some loot_table =>
          let encounter_count :=
            get_encounter_count tier dungeon.floors
          let (res, st1) := reward_encounters M encounter_count.toNat
            loot_table st [] 0
          reward_tiers M dungeon loot_tables rest st1 (acc_eq ++ res.1)
            (acc_cur + res.2)

/-- `dungeon.DungeonManager._generate_completion_rewards`: accumulate
over every configured tier, then scale the currency total by the
reward multiplier (truncated to int). -/
def generate_completion_rewards (M : RandModel) (dungeon : Dungeon)
    (loot_tables : List (String × LootTable)) (pst : PyState) :
    (List Equipment × Int) × PyState :=
  let (res, pst1) :=
    reward_tiers M dungeon loot_tables dungeon.monster_tiers pst [] 0
  ((res.1, pytrunc ((res.2 : ℚ) * dungeon.reward_multiplier)), pst1)

/-- `dungeon.DungeonManager.complete_dungeon_run`.  Note the source
expression `completed_floors or dungeon.floors`: Python `or` falls
through to the default not only for `None` but for the falsy value `0`
as well. -/
def complete_dungeon_run (M : RandModel) (s : DungeonManagerState)
    (now : Int) (run_id : String) (player_inventory : PlayerInventory)
    (loot_tables : List (String × LootTable))
    (completed_floors : Option Int) (pst : PyState) :
    (Option DungeonRun × String) × DungeonManagerState ×
      PlayerInventory × PyState :=
  match alookup s.active_runs run_id with
  | none => ((none, "Run not found"), s, player_inventory, pst)
  | some run =>
      match get_dungeon s run.dungeon_id with
      | none => ((none, "Dungeon not found"), s, player_inventory, pst)
      | some dungeon =>
          let fc : Int := match completed_floors with
            | none => dungeon.floors
            | some f => if f = 0 then dungeon.floors else f
          let completed := fc ≥ dungeon.floors
          let run1 := { run with
            end_time := some now
            floors_completed := fc
            completed := completed }
          let s1 := { s with active_runs := adelete s.active_runs run_id }
          if completed then
            let (rw, pst1) :=
              generate_completion_rewards M dungeon loot_tables pst
            let run2 := { run1 with
              rewards_earned := rw.1
              currency_earned := rw.2 }
            let inv1 := { player_inventory with
              inventory := player_inventory.inventory ++ rw.1
              currency := player_inventory.currency + rw.2 }
            ((some run2, "Dungeon completed! Earned " ++
              toString rw.1.length ++ " items and " ++ toString rw.2 ++
              " currency"), s1, inv1, pst1)
          else
            let currency := pytrunc ((run1.entry_cost : ℚ) * (3/10) *
              ((fc : ℚ) / (dungeon.floors : ℚ)))
            let run2 := { run1 with currency_earned := currency }
            let inv1 := { player_inventory with currency := (
              player_inventory.currency + currency) }
            ((some run2, "Dungeon run ended early. Refunded " ++
              toString currency ++ " currency"), s1, inv1, pst)

/-- A concrete `RandModel` instance (a simple linear congruential
stream) used to run the embedding on concrete inputs. -/
def lcgNext (g : Nat) : Nat := (g * 1103515245 + 12345) % 2147483648

/-- Concrete random model: LCG-driven draws and a counting uuid
oracle. -/
def M0 : RandModel :=
  { seedFn := fun s => s.natAbs % 2147483648
    nextFloat := fun g =>
      let g1 := lcgNext g
      (((g1 % 1000 : Nat) : ℚ) / 1000, g1)
    nextInt := fun a b g =>
      let g1 := lcgNext g
      (a + ((g1 : Int) % (max 1 (b - a + 1))), g1)
    choiceIdx := fun n g =>
      let g1 := lcgNext g
      (g1 % (max 1 n), g1)
    uuidFn := fun n => "uuid-" ++ toString n }

/-- The modifier table is nonnegative for every element pair. -/
theorem get_modifier_nonneg (a b : ElementType) : 0 ≤ get_modifier a b := by
  cases a <;> cases b <;>
    simp [get_modifier, ADVANTAGE_MATRIX, alookup] <;> norm_num

/-- `pytrunc` agrees with the floor on nonnegative arguments. -/
theorem pytrunc_of_nonneg (q : ℚ) (h : 0 ≤ q) : pytrunc q = ⌊q⌋ := by
  simp [pytrunc, h]

/-- Clamping at 1 erases the difference between truncation and floor. -/
theorem max_one_pytrunc (q : ℚ) : max 1 (pytrunc q) = max 1 ⌊q⌋ := by
  unfold pytrunc
  split
  · rfl
  · rename_i h
    push_neg at h
    have h1 : ⌈q⌉ ≤ 0 := by
      rw [Int.ceil_le]
      exact_mod_cast h.le
    have h2 : ⌊q⌋ ≤ ⌈q⌉ := Int.floor_le_ceil q
    omega

/-- `has_status_effect` holds exactly when `get_status_effect` finds an
effect. -/
theorem has_iff_get (c : Character) (t : StatusEffectType) :
    c.has_status_effect t = (c.get_status_effect t).isSome := by
  unfold Character.has_status_effect Character.get_status_effect
  induction c.status_effects with
  | nil => rfl
  | cons x xs ih =>
      by_cases h : x.effect_type = t
      · simp [List.any_cons, List.find?_cons, h]
      · simpa [List.any_cons, List.find?_cons, h] using ih

/-- Claim C2: the elemental modifier is claimed to follow the spec
cycle FIRE→EARTH, EARTH→WIND, WIND→WATER, WATER→FIRE at 1.5 with the
reverses at 0.8.  The code disagrees on EARTH: its row is
`{WATER: 1.5, WIND: 0.8}`, so EARTH vs WIND is 0.8 (claimed 1.5) and
EARTH vs WATER is 1.5 (claimed 0.8). -/
theorem C2_counterexample :
    get_modifier .EARTH .WIND ≠ 3/2 ∧ get_modifier .EARTH .WIND = 4/5 ∧
    get_modifier .EARTH .WATER ≠ 4/5 ∧
    get_modifier .EARTH .WATER = 3/2 := by
  refine ⟨?_, ?_, ?_, ?_⟩ <;>
    simp [get_modifier, ADVANTAGE_MATRIX, alookup] <;> norm_num

/-- Claim C2, amended to the table the code implements:
`get_modifier` is a pure function of the two elements returning 1.5 on
the attacker-to-defender pairs FIRE vs EARTH, EARTH vs WATER, WIND vs
WATER and WATER vs FIRE, 0.8 on FIRE vs WIND, WATER vs EARTH, EARTH vs
WIND and WIND vs FIRE, and 1.0 on every other pair (NEUTRAL pairs and
same-element pairs included). -/
theorem C2_amended_table (a d : ElementType) :
    get_modifier a d =
      if (a = .FIRE ∧ d = .EARTH) ∨ (a = .EARTH ∧ d = .WATER) ∨
          (a = .WIND ∧ d = .WATER) ∨ (a = .WATER ∧ d = .FIRE) then 3/2
      else if (a = .FIRE ∧ d = .WIND) ∨ (a = .WATER ∧ d = .EARTH) ∨
          (a = .EARTH ∧ d = .WIND) ∨ (a = .WIND ∧ d = .FIRE) then 4/5
      else 1 := by
  cases a <;> cases d <;>
    simp [get_modifier, ADVANTAGE_MATRIX, alookup]

/-- Claim C10: `take_damage` returns `max(0, min(damage, current_hp))`
and subtracts exactly that from `current_hp`; a nonnegative HP stays
nonnegative and nonpositive damage is a no-op returning 0. -/
theorem C10_take_damage (c : Character) (d : Int) :
    (c.take_damage d).1 = max 0 (min d c.current_hp) ∧
    (c.take_damage d).2.current_hp =
      c.current_hp - max 0 (min d c.current_hp) ∧
    (0 ≤ c.current_hp → 0 ≤ (c.take_damage d).2.current_hp) ∧
    (0 ≤ c.current_hp → c.current_hp ≤ d →
      (c.take_damage d).1 = c.current_hp) ∧
    (d ≤ 0 → (c.take_damage d).1 = 0 ∧ (c.take_damage d).2 = c) := by
  refine ⟨rfl, rfl, ?_, ?_, ?_⟩
  · intro h
    show (0 : Int) ≤ c.current_hp - max 0 (min d c.current_hp)
    omega
  · intro h0 h
    show max 0 (min d c.current_hp) = c.current_hp
    omega
  · intro h
    have hz : max 0 (min d c.current_hp) = 0 := by omega
    constructor
    · show max 0 (min d c.current_hp) = 0
      exact hz
    · show { c with current_hp := c.current_hp - max 0 (min d c.current_hp) } = c
      rw [hz]
      simp

/-- Concrete instance of claim C10 with every hypothesis discharged:
a character at 7 HP hit for 10 takes exactly 7 and ends at 0. -/
theorem C10_take_damage_witness :
    let c : Character :=
      { character_id := "w", name := "w", character_class := .WARRIOR,
        level := 1, max_hp := 10, current_hp := 7,
        attack := ⟨5, 5⟩, defense := ⟨3, 3⟩, speed := ⟨4, 4⟩,
        element := .NEUTRAL }
    (c.take_damage 10).1 = max 0 (min 10 c.current_hp) ∧
    (c.take_damage 10).2.current_hp =
      c.current_hp - max 0 (min 10 c.current_hp) ∧
    0 ≤ (c.take_damage 10).2.current_hp := by
  intro c
  obtain ⟨h1, h2, h3, _, _⟩ := C10_take_damage c 10
  exact ⟨h1, h2, h3 (by decide)⟩

/-- The damage value claim C3 predicts for `use_random=false`,
written exactly as the claim states it:
`max(1, floor(max(1, floor(A*m - D*0.5)) * E))` with `A` the current
attack plus the active ATTACK_BUFF value (0 when absent), `D` the
current defense and `E` the elemental modifier. -/
def claimedPureDamage (attacker defender : Character) (m : ℚ) : Int :=
  let A : Int := attacker.attack.current_value +
    (match attacker.get_status_effect .ATTACK_BUFF with
     | some e => e.value
     | none => 0)
  let D : Int := defender.defense.current_value
  let E : ℚ := get_modifier attacker.element defender.element
  max 1 ⌊((max 1 ⌊(A : ℚ) * m - (D : ℚ) * (1/2)⌋ : Int) : ℚ) * E⌋

/-- Claim C3: with `use_random=false`, `calculate_damage` draws nothing
(the rng state is returned unchanged) and returns exactly
`(claimedPureDamage, false, false)`; in particular the damage is at
least 1. -/
theorem C3_calculate_damage_pure (M : RandModel)
    (attacker defender : Character) (m : ℚ) (g : Nat) :
    calculate_damage M attacker defender m false g =
      ((claimedPureDamage attacker defender m, false, false), g) ∧
    1 ≤ (calculate_damage M attacker defender m false g).1.1 := by
  have hag : attacker.has_status_effect .ATTACK_BUFF =
      (attacker.get_status_effect .ATTACK_BUFF).isSome :=
    has_iff_get _ _
  have key : calculate_damage M attacker defender m false g =
      ((claimedPureDamage attacker defender m, false, false), g) := by
    cases h : attacker.get_status_effect .ATTACK_BUFF with
    | none =>
        rw [h] at hag
        simp only [calculate_damage, claimedPureDamage, hag, h,
          Option.isSome_none, Bool.false_eq_true, if_false,
          max_one_pytrunc]
    | some e =>
        rw [h] at hag
        simp only [calculate_damage, claimedPureDamage, hag, h,
          Option.isSome_some, Bool.false_eq_true, if_false, if_true,
          max_one_pytrunc]
  refine ⟨key, ?_⟩
  rw [key]
  exact le_max_left 1 _

/-- At most one status effect per effect type: all pairwise distinct
types. -/
def typesPairwise (l : List StatusEffect) : Prop :=
  l.Pairwise (fun x y => x.effect_type ≠ y.effect_type)

/-- With no effect of the incoming type present, the effect is
appended. -/
theorem applyStatusEffectList_no_match (l : List StatusEffect)
    (e : StatusEffect) (h : ∀ x ∈ l, x.effect_type ≠ e.effect_type) :
    applyStatusEffectList l e = l ++ [e] := by
  induction l with
  | nil => rfl
  | cons x xs ih =>
      have hx : x.effect_type ≠ e.effect_type := h x (by simp)
      simp only [applyStatusEffectList, if_neg hx, List.cons_append,
        List.cons.injEq, true_and]
      exact ih (fun y hy => h y (by simp [hy]))

/-- The first effect of the incoming type is replaced exactly when the
incoming duration is strictly greater; otherwise the list is kept. -/
theorem applyStatusEffectList_first_match (pre post : List StatusEffect)
    (x e : StatusEffect) (hpre : ∀ y ∈ pre, y.effect_type ≠ e.effect_type)
    (hx : x.effect_type = e.effect_type) :
    applyStatusEffectList (pre ++ x :: post) e =
      (if x.duration < e.duration then pre ++ e :: post
       else pre ++ x :: post) := by
  induction pre with
  | nil =>
      simp only [List.nil_append, applyStatusEffectList, if_pos hx]
  | cons y ys ih =>
      have hy : y.effect_type ≠ e.effect_type := hpre y (by simp)
      have ihy := ih (fun z hz => hpre z (by simp [hz]))
      simp only [List.cons_append, applyStatusEffectList, if_neg hy,
        List.append_eq]
      rw [ihy]
      by_cases hd : x.duration < e.duration
      · simp [hd]
      · simp [hd]

/-- Members of the updated list come from the old list or are the new
effect. -/
theorem applyStatusEffectList_mem (l : List StatusEffect)
    (e y : StatusEffect) (h : y ∈ applyStatusEffectList l e) :
    y ∈ l ∨ y = e := by
  induction l with
  | nil =>
      simp only [applyStatusEffectList, List.mem_singleton] at h
      exact Or.inr h
  | cons x xs ih =>
      by_cases hx : x.effect_type = e.effect_type
      · simp only [applyStatusEffectList, if_pos hx] at h
        by_cases hd : e.duration > x.duration
        · rw [if_pos hd] at h
          rcases List.mem_cons.mp h with h1 | h1
          · exact Or.inr h1
          · exact Or.inl (by simp [h1])
        · rw [if_neg hd] at h
          exact Or.inl h
      · simp only [applyStatusEffectList, if_neg hx] at h
        rcases List.mem_cons.mp h with h1 | h1
        · exact Or.inl (by simp [h1])
        · rcases ih h1 with h2 | h2
          · exact Or.inl (by simp [h2])
          · exact Or.inr h2

/-- Applying an effect preserves the one-per-type invariant. -/
theorem applyStatusEffectList_pairwise (l : List StatusEffect)
    (e : StatusEffect) (h : typesPairwise l) :
    typesPairwise (applyStatusEffectList l e) := by
  induction l with
  | nil => simp [applyStatusEffectList, typesPairwise]
  | cons x xs ih =>
      rw [typesPairwise, List.pairwise_cons] at h
      obtain ⟨hx, hxs⟩ := h
      by_cases ht : x.effect_type = e.effect_type
      · simp only [applyStatusEffectList, if_pos ht]
        by_cases hd : e.duration > x.duration
        · rw [if_pos hd]
          rw [typesPairwise, List.pairwise_cons]
          exact ⟨fun y hy => ht ▸ hx y hy, hxs⟩
        · rw [if_neg hd]
          rw [typesPairwise, List.pairwise_cons]
          exact ⟨hx, hxs⟩
      · simp only [applyStatusEffectList, if_neg ht]
        rw [typesPairwise, List.pairwise_cons]
        refine ⟨fun y hy => ?_, ih hxs⟩
        rcases applyStatusEffectList_mem xs e y hy with h1 | h1
        · exact hx y h1
        · rw [h1]
          exact ht

/-- Folding applications over a list with the invariant keeps the
invariant. -/
theorem foldl_applyStatusEffectList_pairwise (es : List StatusEffect) :
    ∀ (l : List StatusEffect), typesPairwise l →
    typesPairwise (es.foldl applyStatusEffectList l) := by
  induction es with
  | nil => intro l h; exact h
  | cons e es ih =>
      intro l h
      exact ih _ (applyStatusEffectList_pairwise l e h)

/-- In a list with the invariant, filtering on the type of a member
yields exactly that member. -/
theorem filter_type_eq_single (l : List StatusEffect) (x : StatusEffect)
    (t : StatusEffectType) (h : typesPairwise l) (hm : x ∈ l)
    (ht : x.effect_type = t) :
    l.filter (fun y => y.effect_type = t) = [x] := by
  induction l with
  | nil => cases hm
  | cons y ys ih =>
      rw [typesPairwise, List.pairwise_cons] at h
      obtain ⟨hy, hys⟩ := h
      rcases List.mem_cons.mp hm with h1 | h1
      · subst h1
        have : ys.filter (fun z => z.effect_type = t) = [] := by
          apply List.filter_eq_nil_iff.mpr
          intro z hz
          simp only [decide_eq_true_eq]
          intro hzt
          exact hy z hz (by rw [ht, hzt])
        simp [List.filter_cons, ht, this]
      · have hyt : ¬(y.effect_type = t) := by
          intro hyt
          exact hy x h1 (by rw [hyt, ht])
        simp only [List.filter_cons, decide_eq_true_eq]
        rw [if_neg hyt]
        exact ih hys h1

/-- The character-level fold agrees with the list-level fold. -/
theorem foldl_char_apply (es : List StatusEffect) :
    ∀ (c : Character),
    (es.foldl Character.apply_status_effect c).status_effects =
      es.foldl applyStatusEffectList c.status_effects := by
  induction es with
  | nil => intro c; rfl
  | cons e es ih => intro c; exact ih (c.apply_status_effect e)

/-- Claim C4: applying a status effect appends it when no effect of its
type exists; when one exists (first of that type, after possibly
distinct-typed effects) it is replaced exactly when the new duration is
strictly greater, and kept unchanged (the new effect discarded)
otherwise; any fold of applications starting from an invariant-holding
list (such as the empty list after `reset_for_combat`) leaves at most
one effect per type; and applying with `d2 ≤ d1` leaves exactly one
effect of the type, the existing one. -/
theorem C4_apply_status_effect :
    (∀ (c : Character) (e : StatusEffect),
       (∀ x ∈ c.status_effects, x.effect_type ≠ e.effect_type) →
       (c.apply_status_effect e).status_effects =
         c.status_effects ++ [e]) ∧
    (∀ (c : Character) (pre post : List StatusEffect)
       (x e : StatusEffect),
       c.status_effects = pre ++ x :: post →
       (∀ y ∈ pre, y.effect_type ≠ e.effect_type) →
       x.effect_type = e.effect_type →
       (c.apply_status_effect e).status_effects =
         (if x.duration < e.duration then pre ++ e :: post
          else pre ++ x :: post)) ∧
    (∀ (c : Character) (es : List StatusEffect),
       typesPairwise c.status_effects →
       typesPairwise
         ((es.foldl Character.apply_status_effect c).status_effects)) ∧
    (∀ (c : Character) (e x : StatusEffect),
       typesPairwise c.status_effects → x ∈ c.status_effects →
       x.effect_type = e.effect_type → e.duration ≤ x.duration →
       (c.apply_status_effect e).status_effects = c.status_effects ∧
       c.status_effects.filter
         (fun y => y.effect_type = e.effect_type) = [x]) := by
  refine ⟨?_, ?_, ?_, ?_⟩
  · intro c e h
    exact applyStatusEffectList_no_match c.status_effects e h
  · intro c pre post x e hdec hpre hx
    show applyStatusEffectList c.status_effects e = _
    rw [hdec]
    exact applyStatusEffectList_first_match pre post x e hpre hx
  · intro c es h
    rw [foldl_char_apply]
    exact foldl_applyStatusEffectList_pairwise es c.status_effects h
  · intro c e x hpw hm ht hd
    obtain ⟨pre, post, hdec⟩ := List.mem_iff_append.mp hm
    have hpw2 := hdec ▸ hpw
    rw [typesPairwise, List.pairwise_append] at hpw2
    obtain ⟨_, _, hcross⟩ := hpw2
    have hpre : ∀ y ∈ pre, y.effect_type ≠ e.effect_type := by
      intro y hy
      rw [← ht]
      exact hcross y hy x (by simp)
    constructor
    · show applyStatusEffectList c.status_effects e = _
      rw [hdec]
      rw [applyStatusEffectList_first_match pre post x e hpre ht]
      rw [if_neg (by omega)]
    · exact filter_type_eq_single c.status_effects x e.effect_type hpw hm ht

/-- A fixed stun effect used to instantiate claim C4 concretely. -/
def sampleStun (d : Int) : StatusEffect :=
  { effect_type := .STUN, value := 0, duration := d,
    source_character_id := "s" }

/-- A fixed character carrying one 3-turn stun, for the C4 witness. -/
def stunnedChar : Character :=
  { character_id := "w", name := "w", character_class := .WARRIOR,
    level := 1, max_hp := 10, current_hp := 10,
    attack := ⟨5, 5⟩, defense := ⟨3, 3⟩, speed := ⟨4, 4⟩,
    element := .NEUTRAL, status_effects := [sampleStun 3] }

/-- Concrete instance of claim C4: re-applying a 2-turn stun to a
character already carrying a 3-turn stun changes nothing and the
character keeps exactly the one 3-turn stun. -/
theorem C4_apply_status_effect_witness :
    (stunnedChar.apply_status_effect (sampleStun 2)).status_effects =
      stunnedChar.status_effects ∧
    stunnedChar.status_effects.filter
      (fun y => y.effect_type = (sampleStun 2).effect_type) =
      [sampleStun 3] := by
  obtain ⟨_, _, _, h4⟩ := C4_apply_status_effect
  exact h4 stunnedChar (sampleStun 2) (sampleStun 3)
    (by simp [stunnedChar, typesPairwise])
    (by simp [stunnedChar])
    (by rfl)
    (by norm_num [sampleStun])

/-- An entry can materialize a drop: it has a truthy `item_id` or a
rarity (the complement of the `_generate_drop_from_entry` early
return). -/
def entryQualifies (e : LootEntry) : Bool :=
  truthyId e.item_id || e.rarity.isSome

/-- A qualifying entry always materializes a drop. -/
theorem generate_drop_isSome (M : RandModel) (e : LootEntry)
    (st : PyState) (h : entryQualifies e = true) :
    ((generate_drop_from_entry M e st).1).isSome = true := by
  unfold generate_drop_from_entry
  have hc : (!truthyId e.item_id && decide (e.rarity = none)) = false := by
    rw [entryQualifies, Bool.or_eq_true] at h
    rcases h with h | h
    · simp [h]
    · cases hr : e.rarity with
      | none => rw [hr] at h; simp at h
      | some r => simp [hr]
  rw [hc]
  cases e.rarity <;> simp

/-- A non-qualifying entry materializes nothing and draws nothing. -/
theorem generate_drop_none (M : RandModel) (e : LootEntry)
    (st : PyState) (h : entryQualifies e = false) :
    generate_drop_from_entry M e st = (none, st) := by
  unfold generate_drop_from_entry
  have hc : (!truthyId e.item_id && decide (e.rarity = none)) = true := by
    rw [entryQualifies, Bool.or_eq_false_iff] at h
    obtain ⟨h1, h2⟩ := h
    cases hr : e.rarity with
    | none => simp [h1]
    | some r => rw [hr] at h2; simp at h2
  rw [hc]
  simp

/-- The guaranteed phase yields exactly one drop per qualifying
guaranteed entry. -/
theorem roll_guaranteed_length (M : RandModel) :
    ∀ (entries : List LootEntry) (st : PyState),
    (roll_guaranteed M entries st).1.length =
      (entries.filter
        (fun e => e.is_guaranteed && entryQualifies e)).length := by
  intro entries
  induction entries with
  | nil => intro st; rfl
  | cons e rest ih =>
      intro st
      by_cases hg : e.is_guaranteed
      · simp only [roll_guaranteed, if_pos hg]
        by_cases hq : entryQualifies e
        · have hs := generate_drop_isSome M e st hq
          obtain ⟨d, hd⟩ := Option.isSome_iff_exists.mp hs
          rw [hd]
          simp [List.filter_cons, hg, hq, ih]
        · rw [Bool.not_eq_true] at hq
          rw [generate_drop_none M e st hq]
          simp [List.filter_cons, hg, hq, ih]
      · rw [Bool.not_eq_true] at hg
        simp only [roll_guaranteed, hg, Bool.false_eq_true, if_false]
        simp [List.filter_cons, hg, ih]

/-- Claim C7, amended: the equipment output of `roll_loot` begins with
the guaranteed-phase drops, and that phase yields exactly one drop per
guaranteed entry that has a truthy `item_id` or a rarity.  (Guaranteed
entries with neither field are skipped, which is what the
counterexample exhibits.) -/
theorem C7_guaranteed_drops (M : RandModel) (t : LootTable)
    (seed : Option Int) (st : PyState) :
    (∃ rest, (roll_loot M t seed st).1.1 =
      (roll_guaranteed M t.entries
        (match seed with
         | some s => { st with rng := M.seedFn s }
         | none => st)).1 ++ rest) ∧
    (∀ (entries : List LootEntry) (st' : PyState),
      (roll_guaranteed M entries st').1.length =
        (entries.filter
          (fun e => e.is_guaranteed && entryQualifies e)).length) := by
  constructor
  · unfold roll_loot
    cases seed with
    | none =>
        dsimp only
        split
        · exact ⟨_, rfl⟩
        · exact ⟨[], by simp⟩
    | some s =>
        dsimp only
        split
        · exact ⟨_, rfl⟩
        · exact ⟨[], by simp⟩
  · exact roll_guaranteed_length M

/-- A loot table with a single guaranteed entry that has neither an
item id nor a rarity. -/
def C7_table : LootTable :=
  { table_id := "t", name := "t", monster_tier := .TIER_1,
    entries := [{ is_guaranteed := true }] }

/-- Claim C7 as stated is false: a guaranteed entry with
`item_id = None` and `rarity = None` produces no drop, whatever the
seed, because `_generate_drop_from_entry` returns `None` for it. -/
theorem C7_counterexample :
    C7_table.entries.all (fun e => e.is_guaranteed) = true ∧
    (roll_loot M0 C7_table none ⟨0, 0⟩).1.1 = [] := by
  exact ⟨rfl, rfl⟩

/-- Claim C6, amended: with the same slot, item level, rarity argument
and seed, two `generate_equipment` calls agree on every field except
`item_id` — the name, slot, rarity, level requirement, base stats,
affixes and special proc are all reproduced, from any pair of prior
interpreter states. -/
theorem C6_generate_deterministic (M : RandModel) (slot : EquipmentSlot)
    (item_level : Int) (rarity : Option ItemRarity) (s : Int)
    (st st' : PyState) :
    ((generate_equipment M slot item_level rarity (some s) st).1.name =
      (generate_equipment M slot item_level rarity (some s) st').1.name) ∧
    ((generate_equipment M slot item_level rarity (some s) st).1.slot =
      (generate_equipment M slot item_level rarity (some s) st').1.slot) ∧
    ((generate_equipment M slot item_level rarity (some s) st).1.rarity =
      (generate_equipment M slot item_level rarity (some s) st').1.rarity) ∧
    ((generate_equipment M slot item_level rarity (some s) st).1.level_requirement =
      (generate_equipment M slot item_level rarity (some s) st').1.level_requirement) ∧
    ((generate_equipment M slot item_level rarity (some s) st).1.base_stats =
      (generate_equipment M slot item_level rarity (some s) st').1.base_stats) ∧
    ((generate_equipment M slot item_level rarity (some s) st).1.affixes =
      (generate_equipment M slot item_level rarity (some s) st').1.affixes) ∧
    ((generate_equipment M slot item_level rarity (some s) st).1.special_proc =
      (generate_equipment M slot item_level rarity (some s) st').1.special_proc) := by
  cases rarity <;> exact ⟨rfl, rfl, rfl, rfl, rfl, rfl, rfl⟩

/-- Claim C6 as stated is false on the `item_id` field: two sequential
calls with identical slot, level, rarity and seed return fresh uuid4
item ids (the uuid oracle is outside the seeded stream), here `uuid-0`
and then `uuid-1`, while the seeded fields (e.g. the name) coincide. -/
theorem C6_counterexample :
    (generate_equipment M0 .WEAPON 10 (some .RARE) (some 42)
        ⟨0, 0⟩).1.item_id ≠
      (generate_equipment M0 .WEAPON 10 (some .RARE) (some 42)
        (generate_equipment M0 .WEAPON 10 (some .RARE) (some 42)
          ⟨0, 0⟩).2).1.item_id ∧
    (generate_equipment M0 .WEAPON 10 (some .RARE) (some 42)
        ⟨0, 0⟩).1.name =
      (generate_equipment M0 .WEAPON 10 (some .RARE) (some 42)
        (generate_equipment M0 .WEAPON 10 (some .RARE) (some 42)
          ⟨0, 0⟩).2).1.name := by
  exact ⟨by decide, rfl⟩

/-- Claim C8, amended: for an active run whose dungeon exists, an
explicitly supplied `completed_floors = f` with `1 ≤ f < floors` marks
the run incomplete with exactly `f` floors, refunds
`floor(entry_cost * 0.3 * f / floors)` currency, adds no equipment, and
removes the run from the active set.  (`f = 0` is excluded: Python
`completed_floors or dungeon.floors` treats 0 as absent, which the
counterexample exhibits.) -/
theorem C8_partial_completion (M : RandModel) (s : DungeonManagerState)
    (now : Int) (run_id : String) (inv : PlayerInventory)
    (lt : List (String × LootTable)) (f : Int) (run : DungeonRun)
    (dungeon : Dungeon) (pst : PyState)
    (hrun : alookup s.active_runs run_id = some run)
    (hd : get_dungeon s run.dungeon_id = some dungeon)
    (hcost : 0 ≤ run.entry_cost)
    (h1 : 1 ≤ f) (h2 : f < dungeon.floors) :
    let r := complete_dungeon_run M s now run_id inv lt (some f) pst
    r.1.1.map DungeonRun.floors_completed = some f ∧
    r.1.1.map DungeonRun.completed = some false ∧
    r.2.2.1.currency = inv.currency +
      ⌊((run.entry_cost * 3 * f : Int) : ℚ) /
        ((10 * dungeon.floors : Int) : ℚ)⌋ ∧
    r.2.2.1.inventory = inv.inventory ∧
    r.2.1.active_runs = adelete s.active_runs run_id := by
  intro r
  have hf0 : ¬(f = 0) := by omega
  have hnc : ¬(f ≥ dungeon.floors) := by omega
  have hfl : (0 : Int) < dungeon.floors := by omega
  have hflq : ((dungeon.floors : Int) : ℚ) ≠ 0 := by
    exact_mod_cast hfl.ne.symm
  have hval : ((run.entry_cost : Int) : ℚ) * (3/10) *
      (((f : Int) : ℚ) / ((dungeon.floors : Int) : ℚ)) =
      ((run.entry_cost * 3 * f : Int) : ℚ) /
        ((10 * dungeon.floors : Int) : ℚ) := by
    push_cast
    field_simp
  have hpos : (0 : ℚ) ≤ ((run.entry_cost : Int) : ℚ) * (3/10) *
      (((f : Int) : ℚ) / ((dungeon.floors : Int) : ℚ)) := by
    have hc : (0 : ℚ) ≤ ((run.entry_cost : Int) : ℚ) := by
      exact_mod_cast hcost
    have hfq : (0 : ℚ) ≤ ((f : Int) : ℚ) := by
      exact_mod_cast (by omega : (0 : Int) ≤ f)
    have hflq2 : (0 : ℚ) ≤ ((dungeon.floors : Int) : ℚ) := by
      exact_mod_cast hfl.le
    positivity
  show (let r := complete_dungeon_run M s now run_id inv lt (some f) pst
    r.1.1.map DungeonRun.floors_completed = some f ∧
    r.1.1.map DungeonRun.completed = some false ∧
    r.2.2.1.currency = inv.currency +
      ⌊((run.entry_cost * 3 * f : Int) : ℚ) /
        ((10 * dungeon.floors : Int) : ℚ)⌋ ∧
    r.2.2.1.inventory = inv.inventory ∧
    r.2.1.active_runs = adelete s.active_runs run_id)
  simp only [complete_dungeon_run, hrun, hd, if_neg hf0,
    decide_eq_true_eq]
  rw [if_neg hnc]
  refine ⟨rfl, by simp [hnc], ?_, rfl, rfl⟩
  simp only [Option.map_some]
  rw [hval] at *
  rw [pytrunc_of_nonneg _ (hval ▸ hpos)]

/-- A fixed active run in the goblin caves (entry cost 10, 5 floors),
used to instantiate claim C8. -/
def C8_run : DungeonRun :=
  { run_id := "r1", player_id := "p", dungeon_id := "goblin_caves",
    difficulty := .EASY, start_time := 0, total_floors := 5,
    entry_cost := 10 }

/-- Manager state holding the default dungeons and the one active
run. -/
def C8_state : DungeonManagerState :=
  { dungeons := DEFAULT_DUNGEONS, active_runs := [("r1", C8_run)] }

/-- Inventory used to instantiate claim C8. -/
def C8_inv : PlayerInventory := { player_id := "p", currency := 7 }

/-- The goblin-caves configuration, as stored in `DEFAULT_DUNGEONS`. -/
def C8_dungeon : Dungeon :=
  { dungeon_id := "goblin_caves", name := "Goblin Caves",
    description := "Infested caves filled with goblins and their treasures.",
    difficulty := .EASY, level_requirement := 1, entry_cost := 10,
    floors := 5, daily_reset_count := 5, reward_multiplier := 1,
    monster_tiers := [.TIER_1, .TIER_2] }

/-- Claim C8 as stated is false at `completed_floors = 0`: the Python
expression `completed_floors or dungeon.floors` treats 0 as absent, so
the run is recorded as fully completed (5 of 5 floors, completed =
true) instead of a 0-floor early exit. -/
theorem C8_counterexample :
    (complete_dungeon_run M0 C8_state 0 "r1" C8_inv [] (some 0)
        ⟨0, 0⟩).1.1.map DungeonRun.floors_completed = some 5 ∧
    (complete_dungeon_run M0 C8_state 0 "r1" C8_inv [] (some 0)
        ⟨0, 0⟩).1.1.map DungeonRun.completed = some true := by
  exact ⟨rfl, rfl⟩

/-- Concrete instance of claim C8 with every hypothesis discharged:
finishing 2 of the 5 goblin-cave floors refunds
`floor(10 * 0.3 * 2/5) = 1` currency and leaves the run incomplete. -/
theorem C8_partial_completion_witness :
    let r := complete_dungeon_run M0 C8_state 0 "r1" C8_inv [] (some 2)
      ⟨0, 0⟩
    r.1.1.map DungeonRun.floors_completed = some 2 ∧
    r.1.1.map DungeonRun.completed = some false ∧
    r.2.2.1.currency = C8_inv.currency +
      ⌊((C8_run.entry_cost * 3 * 2 : Int) : ℚ) /
        ((10 * C8_dungeon.floors : Int) : ℚ)⌋ ∧
    r.2.2.1.inventory = C8_inv.inventory ∧
    r.2.1.active_runs = adelete C8_state.active_runs "r1" := by
  exact C8_partial_completion M0 C8_state 0 "r1" C8_inv [] 2 C8_run
    C8_dungeon ⟨0, 0⟩ rfl rfl (by decide) (by decide) (by decide)

/-- Updating a key makes it look up to the new value. -/
theorem alookup_aupdate_self {α β : Type} [DecidableEq α]
    (l : List (α × β)) (k : α) (v : β) :
    alookup (aupdate l k v) k = some v := by
  induction l with
  | nil => simp [aupdate, alookup]
  | cons p rest ih =>
      by_cases h : p.1 = k
      · simp [aupdate, alookup, h]
      · simp [aupdate, alookup, h, ih]

/-- The daily info returned by `get_or_create_daily_info` is for
today. -/
theorem goc_date (s : DungeonManagerState) (today : Int) (pid : String) :
    (get_or_create_daily_info s today pid).1.date = today := by
  unfold get_or_create_daily_info
  cases h : alookup s.daily_resets pid with
  | none => rfl
  | some info =>
      by_cases hd : info.date = today
      · simp [hd]
      · simp [hd]

/-- The attempts recorded in the info returned by
`get_or_create_daily_info` are the attempts recorded today. -/
theorem goc_attempts (s : DungeonManagerState) (today : Int)
    (pid did : String) :
    (alookup (get_or_create_daily_info s today pid).1.dungeon_attempts
      did).getD 0 = attemptsToday s today pid did := by
  unfold get_or_create_daily_info attemptsToday
  cases h : alookup s.daily_resets pid with
  | none => simp [alookup]
  | some info =>
      by_cases hd : info.date = today
      · simp [hd]
      · simp [hd, alookup]

/-- `get_or_create_daily_info` does not change the attempts recorded
today. -/
theorem goc_state_attempts (s : DungeonManagerState) (today : Int)
    (pid did : String) :
    attemptsToday (get_or_create_daily_info s today pid).2 today pid did =
      attemptsToday s today pid did := by
  unfold get_or_create_daily_info
  cases h : alookup s.daily_resets pid with
  | none =>
      simp only []
      unfold attemptsToday
      simp [alookup_aupdate_self, h, alookup]
  | some info =>
      by_cases hd : info.date = today
      · simp [hd]
      · simp only [hd, if_false]
        unfold attemptsToday
        simp [alookup_aupdate_self, h, hd, alookup]

/-- `get_or_create_daily_info` does not touch the active runs. -/
theorem goc_active (s : DungeonManagerState) (today : Int)
    (pid : String) :
    (get_or_create_daily_info s today pid).2.active_runs =
      s.active_runs := by
  unfold get_or_create_daily_info
  cases h : alookup s.daily_resets pid with
  | none => rfl
  | some info =>
      by_cases hd : info.date = today
      · simp [hd]
      · simp [hd]

/-- `can_enter_dungeon` does not change the attempts recorded today. -/
theorem can_enter_attempts (s : DungeonManagerState) (today : Int)
    (pid did : String) (lvl cur : Int) :
    attemptsToday (can_enter_dungeon s today pid did lvl cur).2 today
      pid did = attemptsToday s today pid did := by
  unfold can_enter_dungeon
  cases hd : get_dungeon s did with
  | none => rfl
  | some dungeon =>
      by_cases h1 : lvl < dungeon.level_requirement
      · simp [h1]
      · by_cases h2 : cur < dungeon.entry_cost
        · simp [h1, h2]
        · simp only [h1, h2, if_false]
          by_cases h3 :
            (alookup (get_or_create_daily_info s today pid).1.dungeon_attempts
              did).getD 0 ≥ dungeon.daily_reset_count
          · simp [h3, goc_state_attempts]
          · simp [h3, goc_state_attempts]

/-- `can_enter_dungeon` does not touch the active runs. -/
theorem can_enter_active (s : DungeonManagerState) (today : Int)
    (pid did : String) (lvl cur : Int) :
    (can_enter_dungeon s today pid did lvl cur).2.active_runs =
      s.active_runs := by
  unfold can_enter_dungeon
  cases hd : get_dungeon s did with
  | none => rfl
  | some dungeon =>
      by_cases h1 : lvl < dungeon.level_requirement
      · simp [h1]
      · by_cases h2 : cur < dungeon.entry_cost
        · simp [h1, h2]
        · simp only [h1, h2, if_false]
          by_cases h3 :
            (alookup (get_or_create_daily_info s today pid).1.dungeon_attempts
              did).getD 0 ≥ dungeon.daily_reset_count
          · simp [h3, goc_active]
          · simp [h3, goc_active]

/-- `attemptsToday` after storing a fresh info record for today reads
that record. -/
theorem attemptsToday_mk_update (dg : List (String × Dungeon))
    (ar : List (String × DungeonRun))
    (dr : List (String × DailyResetInfo)) (pid did : String)
    (today : Int) (info : DailyResetInfo) (hdate : info.date = today) :
    attemptsToday ⟨dg, ar, aupdate dr pid info⟩ today pid did =
      (alookup info.dungeon_attempts did).getD 0 := by
  unfold attemptsToday
  simp [alookup_aupdate_self, hdate]

/-- One `start_dungeon_run` call moves the daily attempt counter by
exactly its success indicator. -/
theorem start_attempts (M : RandModel) (s : DungeonManagerState)
    (today now : Int) (pid did : String) (ch : Character)
    (inv : PlayerInventory) (lt : List (String × LootTable))
    (pst : PyState) :
    attemptsToday
      (start_dungeon_run M s today now pid did ch inv lt pst).2.1 today
      pid did =
    attemptsToday s today pid did +
      (if (start_dungeon_run M s today now pid did ch inv lt
          pst).1.1.isSome then 1 else 0) := by
  unfold start_dungeon_run
  by_cases hce : (can_enter_dungeon s today pid did ch.level
      inv.currency).1.1
  · simp only [hce, Bool.not_true, Bool.false_eq_true, if_false,
      Option.isSome_some, if_true]
    rw [attemptsToday_mk_update]
    · dsimp only
      rw [alookup_aupdate_self]
      simp only [Option.getD_some]
      rw [goc_attempts, can_enter_attempts]
    · exact goc_date _ _ _
  · rw [Bool.not_eq_true] at hce
    simp only [hce, Bool.not_false, if_true, Option.isSome_none,
      Bool.false_eq_true, if_false]
    rw [can_enter_attempts]
    omega

/-- A failed `can_enter_dungeon` makes `start_dungeon_run` return no
run and leave the inventory, today's counter and the active runs
untouched. -/
theorem start_fail (M : RandModel) (s : DungeonManagerState)
    (today now : Int) (pid did : String) (ch : Character)
    (inv : PlayerInventory) (lt : List (String × LootTable))
    (pst : PyState)
    (hce : (can_enter_dungeon s today pid did ch.level
      inv.currency).1.1 = false) :
    (start_dungeon_run M s today now pid did ch inv lt pst).1.1 = none ∧
    (start_dungeon_run M s today now pid did ch inv lt pst).2.2.1 =
      inv ∧
    attemptsToday
      (start_dungeon_run M s today now pid did ch inv lt pst).2.1 today
      pid did = attemptsToday s today pid did ∧
    (start_dungeon_run M s today now pid did ch inv lt
      pst).2.1.active_runs = s.active_runs := by
  unfold start_dungeon_run
  simp only [hce, Bool.not_false, if_true]
  refine ⟨trivial, trivial, ?_, ?_⟩
  · exact can_enter_attempts s today pid did ch.level inv.currency
  · exact can_enter_active s today pid did ch.level inv.currency

/-- `n` consecutive `start_dungeon_run` calls for one player and
dungeon, threading manager state, inventory and interpreter state;
the final component counts the successful calls. -/
def startN (M : RandModel) (today now : Int) (pid did : String)
    (ch : Character) (lt : List (String × LootTable)) :
    Nat → DungeonManagerState × PlayerInventory × PyState →
    DungeonManagerState × PlayerInventory × PyState × Nat
  | 0, (s, inv, pst) => (s, inv, pst, 0)
  | n + 1, (s, inv, pst) =>
      let r := start_dungeon_run M s today now pid did ch inv lt pst
      let rest := startN M today now pid did ch lt n
        (r.2.1, r.2.2.1, r.2.2.2)
      (rest.1, rest.2.1, rest.2.2.1,
        rest.2.2.2 + (if r.1.1.isSome then 1 else 0))

/-- After any sequence of `start_dungeon_run` calls, today's attempt
counter has grown by exactly the number of successful calls. -/
theorem startN_attempts (M : RandModel) (today now : Int)
    (pid did : String) (ch : Character)
    (lt : List (String × LootTable)) :
    ∀ (n : Nat) (s : DungeonManagerState) (inv : PlayerInventory)
      (pst : PyState),
    attemptsToday
      (startN M today now pid did ch lt n (s, inv, pst)).1 today pid
      did =
      attemptsToday s today pid did +
        (startN M today now pid did ch lt n (s, inv, pst)).2.2.2 := by
  intro n
  induction n with
  | zero => intro s inv pst; simp [startN]
  | succ n ih =>
      intro s inv pst
      simp only [startN]
      rw [ih, start_attempts]
      by_cases h : (start_dungeon_run M s today now pid did ch inv lt
          pst).1.1.isSome = true
      · simp only [h, if_true]
        push_cast
        omega
      · rw [Bool.not_eq_true] at h
        simp only [h, Bool.false_eq_true, if_false]
        push_cast
        omega

/-- Claim C9: a successful `start_dungeon_run` increments the daily
counter by one; once today's counter equals `daily_reset_count`, a
`can_enter_dungeon` call with sufficient level and currency returns
false with the daily-exhaustion reason; a failed `can_enter_dungeon`
makes `start_dungeon_run` return no run without deducting currency,
incrementing the counter, or registering a run; and any sequence of
start calls raises the counter by exactly its number of successes. -/
theorem C9_daily_quota (M : RandModel) (s : DungeonManagerState)
    (today now : Int) (pid did : String) (ch : Character)
    (inv : PlayerInventory) (lt : List (String × LootTable))
    (pst : PyState) (lvl cur : Int) (dungeon : Dungeon) :
    ((start_dungeon_run M s today now pid did ch inv lt
        pst).1.1.isSome = true →
      attemptsToday
        (start_dungeon_run M s today now pid did ch inv lt pst).2.1
        today pid did = attemptsToday s today pid did + 1) ∧
    (get_dungeon s did = some dungeon →
      dungeon.level_requirement ≤ lvl →
      dungeon.entry_cost ≤ cur →
      attemptsToday s today pid did = dungeon.daily_reset_count →
      (can_enter_dungeon s today pid did lvl cur).1 =
        (false, "Daily attempts exhausted (" ++
          toString dungeon.daily_reset_count ++ "/" ++
          toString dungeon.daily_reset_count ++ ")")) ∧
    ((can_enter_dungeon s today pid did ch.level inv.currency).1.1 =
        false →
      (start_dungeon_run M s today now pid did ch inv lt pst).1.1 =
        none ∧
      (start_dungeon_run M s today now pid did ch inv lt pst).2.2.1 =
        inv ∧
      attemptsToday
        (start_dungeon_run M s today now pid did ch inv lt pst).2.1
        today pid did = attemptsToday s today pid did ∧
      (start_dungeon_run M s today now pid did ch inv lt
        pst).2.1.active_runs = s.active_runs) ∧
    (∀ n : Nat,
      attemptsToday
        (startN M today now pid did ch lt n (s, inv, pst)).1 today pid
        did =
        attemptsToday s today pid did +
          (startN M today now pid did ch lt n (s, inv, pst)).2.2.2) := by
  refine ⟨?_, ?_, ?_, ?_⟩
  · intro h
    rw [start_attempts M s today now pid did ch inv lt pst, h]
    simp
  · intro hd hl hc ha
    unfold can_enter_dungeon
    rw [hd]
    dsimp only
    rw [if_neg (by omega), if_neg (by omega), goc_attempts, ha,
      if_pos (le_refl _)]
  · exact start_fail M s today now pid did ch inv lt pst
  · exact fun n => startN_attempts M today now pid did ch lt n s inv
      pst

/-- A level-20 character used to instantiate claim C9. -/
def C9_char : Character :=
  { character_id := "c", name := "c", character_class := .WARRIOR,
    level := 20, max_hp := 10, current_hp := 10,
    attack := ⟨1, 1⟩, defense := ⟨1, 1⟩, speed := ⟨1, 1⟩,
    element := .NEUTRAL }

/-- An inventory with 500 currency used to instantiate claim C9. -/
def C9_inv : PlayerInventory := { player_id := "p", currency := 500 }

/-- The shadow-realm configuration, as stored in `DEFAULT_DUNGEONS`
(daily quota 1). -/
def C9_dungeon : Dungeon :=
  { dungeon_id := "shadow_realm", name := "Shadow Realm",
    description := "A realm of pure darkness where only the strongest survive.",
    difficulty := .NIGHTMARE, level_requirement := 15, entry_cost := 100,
    floors := 15, daily_reset_count := 1, reward_multiplier := 2,
    monster_tiers := [.TIER_4] }

/-- Manager state in which player `p` has already used today's single
shadow-realm attempt. -/
def C9_state : DungeonManagerState :=
  { dungeons := DEFAULT_DUNGEONS,
    daily_resets := [("p",
      { player_id := "p", date := 0,
        dungeon_attempts := [("shadow_realm", 1)] })] }

/-- Concrete instance of claim C9 with every hypothesis discharged: a
successful shadow-realm start from a fresh manager raises the counter
from 0 to 1, and once the counter equals the quota (1) the next
`can_enter_dungeon` with ample level and currency reports daily
exhaustion. -/
theorem C9_daily_quota_witness :
    (attemptsToday (start_dungeon_run M0 DungeonManager.init 0 0 "p"
        "shadow_realm" C9_char C9_inv [] ⟨0, 0⟩).2.1 0 "p"
        "shadow_realm" =
      attemptsToday DungeonManager.init 0 "p" "shadow_realm" + 1) ∧
    ((can_enter_dungeon C9_state 0 "p" "shadow_realm" 20 500).1 =
      (false, "Daily attempts exhausted (" ++
        toString C9_dungeon.daily_reset_count ++ "/" ++
        toString C9_dungeon.daily_reset_count ++ ")")) := by
  obtain ⟨hA, _, _, _⟩ := C9_daily_quota M0 DungeonManager.init 0 0 "p"
    "shadow_realm" C9_char C9_inv [] ⟨0, 0⟩ 20 500 C9_dungeon
  obtain ⟨_, hB, _, _⟩ := C9_daily_quota M0 C9_state 0 0 "p"
    "shadow_realm" C9_char C9_inv [] ⟨0, 0⟩ 20 500 C9_dungeon
  exact ⟨hA rfl, hB rfl (by decide) (by decide) rfl⟩

/-- The per-action fields claim C1 compares: damage dealt, healing
done, crit, miss, stun, multi-hit count. -/
def actionObservables (a : CombatAction) :
    Int × Int × Bool × Bool × Bool × Int :=
  (a.damage_dealt, a.healing_done, a.is_crit, a.is_miss, a.is_stun,
    a.multi_hit_count)

/-- The observable content of a turn: its actions' compared fields. -/
def turnObservables (t : CombatTurn) :
    List (Int × Int × Bool × Bool × Bool × Int) :=
  t.actions.map actionObservables

/-- Claim C1: two sequential sessions, each constructing a
`CombatSimulator` with the same seed (which reseeds the shared stream,
discarding whatever state the first session left) and simulating the
same pair of characters, agree on the winner, the turn count, and every
compared field of every action of every turn.  The two combat logs may
differ only in the uuid-drawn `combat_id`. -/
theorem C1_determinism (M : RandModel) (s : Int) (p o : Character)
    (st : PyState) :
    (runSimulation M (some s) p o st).1.winner_id =
      (runSimulation M (some s) p o
        (runSimulation M (some s) p o st).2).1.winner_id ∧
    (runSimulation M (some s) p o st).1.total_turns =
      (runSimulation M (some s) p o
        (runSimulation M (some s) p o st).2).1.total_turns ∧
    (runSimulation M (some s) p o st).1.turns.map turnObservables =
      ((runSimulation M (some s) p o
        (runSimulation M (some s) p o st).2).1.turns.map
          turnObservables) := by
  exact ⟨rfl, rfl, rfl⟩

/-- The loop counter never exceeds 50 (the guard stops at
`MAX_TURNS`). -/
theorem combat_loop_turn_le (M : RandModel) :
    ∀ (fuel : Nat) (turn : Int) (p o : Character) (g : Nat)
      (acc : List CombatTurn),
    turn ≤ 50 →
    (combat_loop M fuel turn p o g acc).2.2.2.2 ≤ 50 := by
  intro fuel
  induction fuel with
  | zero => intro turn p o g acc h; exact h
  | succ fuel ih =>
      intro turn p o g acc h
      rw [combat_loop]
      split
      · rename_i hguard
        simp only [Bool.and_eq_true, decide_eq_true_eq, MAX_TURNS]
          at hguard
        exact ih (turn + 1) _ _ _ _ (by omega)
      · exact h

/-- When the fuel covers the remaining distance to the cap, the loop
only stops because the guard failed: at exit, someone is dead or the
cap is reached. -/
theorem combat_loop_exit (M : RandModel) :
    ∀ (fuel : Nat) (turn : Int) (p o : Character) (g : Nat)
      (acc : List CombatTurn),
    50 ≤ (fuel : Int) + turn →
    ¬((combat_loop M fuel turn p o g acc).1.is_alive = true ∧
      (combat_loop M fuel turn p o g acc).2.1.is_alive = true ∧
      (combat_loop M fuel turn p o g acc).2.2.2.2 < 50) := by
  intro fuel
  induction fuel with
  | zero =>
      intro turn p o g acc h
      intro hcon
      have : turn < 50 := hcon.2.2
      simp only [Nat.cast_zero, zero_add] at h
      omega
  | succ fuel ih =>
      intro turn p o g acc h
      rw [combat_loop]
      split
      · rename_i hguard
        exact ih (turn + 1) _ _ _ _ (by push_cast at h ⊢; omega)
      · rename_i hguard
        intro hcon
        apply hguard
        simp only [Bool.and_eq_true, decide_eq_true_eq, MAX_TURNS]
        exact ⟨⟨hcon.1, hcon.2.1⟩, hcon.2.2⟩

/-- The winner expression yields no winner when both sides are
alive. -/
theorem winner_aux (a b : Bool) (x y : String) (ha : a = true)
    (hb : b = true) :
    (if a && !b then some x else if b && !a then some y else none) =
      (none : Option String) := by
  subst ha
  subst hb
  rfl

/-- Claim C5, amended: `simulate_combat` always terminates with
`total_turns ≤ 50`; the loop only stops when a combatant's HP is gone
or the cap is reached; if both are alive at the end (necessarily at the
cap) the result is a draw (`winner_id = none`); and in general the
winner is the sole survivor — when the player alone survives it is the
player, when the opponent alone survives it is the opponent, and
otherwise (both alive at the cap, or both dead in the same turn)
`winner_id` is `none`. -/
theorem C5_termination_winner (M : RandModel) (cid : String)
    (p o : Character) (g : Nat) :
    (simulate_combat M cid p o g).1.total_turns ≤ 50 ∧
    ¬((simulate_combat M cid p o g).1.player.is_alive = true ∧
      (simulate_combat M cid p o g).1.opponent.is_alive = true ∧
      (simulate_combat M cid p o g).1.total_turns < 50) ∧
    ((simulate_combat M cid p o g).1.player.is_alive = true ∧
      (simulate_combat M cid p o g).1.opponent.is_alive = true →
      (simulate_combat M cid p o g).1.winner_id = none) ∧
    ((simulate_combat M cid p o g).1.winner_id =
      if (simulate_combat M cid p o g).1.player.is_alive &&
          !(simulate_combat M cid p o g).1.opponent.is_alive then
        some (simulate_combat M cid p o g).1.player.character_id
      else if (simulate_combat M cid p o g).1.opponent.is_alive &&
          !(simulate_combat M cid p o g).1.player.is_alive then
        some (simulate_combat M cid p o g).1.opponent.character_id
      else none) := by
  refine ⟨?_, ?_, ?_, rfl⟩
  · exact combat_loop_turn_le M 50 0 p.reset_for_combat
      o.reset_for_combat _ [] (by norm_num)
  · exact combat_loop_exit M 50 0 p.reset_for_combat
      o.reset_for_combat _ [] (by norm_num)
  · intro h
    exact winner_aux _ _ _ _ h.1 h.2

/-- A combatant with zero maximum HP (the `Character` dataclass does
not validate its fields). -/
def deadCharA : Character :=
  { character_id := "p", name := "p", character_class := .WARRIOR,
    level := 1, max_hp := 0, current_hp := 0,
    attack := ⟨5, 5⟩, defense := ⟨3, 3⟩, speed := ⟨4, 4⟩,
    element := .NEUTRAL }

/-- A second zero-HP combatant. -/
def deadCharB : Character :=
  { character_id := "q", name := "q", character_class := .MAGE,
    level := 1, max_hp := 0, current_hp := 0,
    attack := ⟨5, 5⟩, defense := ⟨3, 3⟩, speed := ⟨4, 4⟩,
    element := .NEUTRAL }

/-- Claim C5 as stated is false in its winner clause: when neither
combatant survives (here both enter with 0 max HP; the same happens
when DOT kills the actor in the turn its attack kills the target), the
combatants are not "both alive at the cap", yet there is no sole
surviving character — `winner_id` is `none` with both dead, refuting
"otherwise winner_id is the character id of the sole surviving
character". -/
theorem C5_counterexample :
    ¬(((simulate_combat M0 "c" deadCharA deadCharB 0).1.player.is_alive
          = true ∧
        (simulate_combat M0 "c" deadCharA deadCharB
          0).1.opponent.is_alive = true →
        (simulate_combat M0 "c" deadCharA deadCharB 0).1.winner_id =
          none) ∧
      (¬((simulate_combat M0 "c" deadCharA deadCharB
            0).1.player.is_alive = true ∧
          (simulate_combat M0 "c" deadCharA deadCharB
            0).1.opponent.is_alive = true) →
        ((simulate_combat M0 "c" deadCharA deadCharB
            0).1.player.is_alive = true ∧
          (simulate_combat M0 "c" deadCharA deadCharB
            0).1.opponent.is_alive = false ∧
          (simulate_combat M0 "c" deadCharA deadCharB 0).1.winner_id =
            some (simulate_combat M0 "c" deadCharA deadCharB
              0).1.player.character_id) ∨
        ((simulate_combat M0 "c" deadCharA deadCharB
            0).1.opponent.is_alive = true ∧
          (simulate_combat M0 "c" deadCharA deadCharB
            0).1.player.is_alive = false ∧
          (simulate_combat M0 "c" deadCharA deadCharB 0).1.winner_id =
            some (simulate_combat M0 "c" deadCharA deadCharB
              0).1.opponent.character_id))) := by
  decide
